import Mathlib

/-!
Verification development for the TAMV optical alignment engine
(`TAMV_GUI.py`, class `CalibrateNozzles` and the result handling in `App`).

The Python source is shallowly embedded over exact rationals:

* `np.around(x, d)` (round half to even to `d` decimals) is embedded as
  `roundTo d : ℚ → ℚ`;
* `getDistance` (which applies `np.sqrt` and then `np.around(·, 3)`) is
  embedded as the computable function returning the multiple of `1/1000`
  nearest to the exact Euclidean distance (obtained through `Nat.sqrt`);
  at an exact tie the model rounds half up, a case that cannot arise for
  the integer pixel coordinates the gate produces;
* the detection gate `analyzeFrame` is embedded as a recursion over the
  list of captured frames, each frame carrying its blob-detector output
  and a millisecond timestamp;
* the per-tool controller `calibrateTool` is embedded as a recursion over
  the list of detections returned by the gate, with the full mutable state
  of the Python loop carried in a `CalibState` record;
* the call to `np.linalg.lstsq` inside `least_square_mapping` is embedded
  by its mathematical contract (the residual-minimising, minimum-norm
  solution), as the relation `least_square_mapping_spec`; the controller
  embedding takes the solver as an explicit function parameter.
-/

namespace TAMV

/-- Round a rational to the nearest integer, half to even; this is the
integer-rounding convention of `np.around`. -/
def rhe (q : ℚ) : ℤ :=
  let f : ℤ := ⌊q⌋
  let r : ℚ := q - (f : ℚ)
  if r < 1/2 then f
  else if 1/2 < r then f + 1
  else if f % 2 = 0 then f else f + 1

/-- `np.around(q, d)`: round to `d` decimal places, half to even. -/
def roundTo (d : ℕ) (q : ℚ) : ℚ :=
  (rhe (q * (10 ^ d : ℕ)) : ℚ) / (10 ^ d : ℕ)

/-! ### `getDistance` (source lines 1070–1078)

The source computes `np.around(np.sqrt((x1-x0)**2 + (y1-y0)**2), 3)`.
`sqrtRound3 s` is the multiple of `1/1000` nearest to `√s`, computed
exactly with `Nat.sqrt`: with `j = ⌊√(4·10⁶·s)⌋ = ⌊2000·√s⌋`, the natural
number `(j+1)/2` is the nearest integer to `1000·√s`. -/

/-- Nearest natural number to `1000 · √s` (for `0 ≤ s`), computed exactly. -/
def sqrtScaled (s : ℚ) : ℕ :=
  (Nat.sqrt (Int.toNat ⌊4 * (1000000 * s)⌋) + 1) / 2

/-- `np.around(np.sqrt(s), 3)` for a nonnegative rational radicand `s`. -/
def sqrtRound3 (s : ℚ) : ℚ := (sqrtScaled s : ℚ) / 1000

/-- `CalibrateNozzles.getDistance`: the Euclidean distance between
`(x1, y1)` and `(x0, y0)`, rounded to 3 decimal places. -/
def getDistance (x1 y1 x0 y0 : ℚ) : ℚ :=
  sqrtRound3 ((x1 - x0) ^ 2 + (y1 - y0) ^ 2)

/-! ### Detection gate: `CalibrateNozzles.analyzeFrame` (source lines 747–859)

One loop iteration reads a frame and runs the blob detector; an `Obs`
carries the outcome of that iteration: whether the read succeeded
(`self.ret`), the keypoints the detector returned, and the millisecond
timestamp at which the frame was handled.  `rd` is the timestamp captured
when `analyzeFrame` was entered.  The pixel center of a keypoint is
rounded (`np.around`) and cast to `np.uint16` (a modular cast), the radius
is `np.around(size/2)`. -/

/-- A keypoint as produced by `cv2.SimpleBlobDetector`. -/
structure KeyPt where
  pt : ℚ × ℚ
  size : ℚ
deriving DecidableEq

/-- One pass of the `analyzeFrame` loop: frame-read flag, detector output,
timestamp in milliseconds. -/
structure Obs where
  ret : Bool
  keypoints : List KeyPt
  t : ℕ
deriving DecidableEq

/-- Outcome of one `analyzeFrame` call: the returned center/radius (if the
stream did not end first), and how many detection-error, ambiguity and
no-circle messages were emitted. -/
structure GateResult where
  found : Option ((ℕ × ℕ) × ℤ)
  errors : ℕ
  ambigs : ℕ
  misses : ℕ
deriving DecidableEq

/-- `np.uint16(np.around(keypoints[0].pt))`. -/
def kpCenter (k : KeyPt) : ℕ × ℕ :=
  (Int.toNat (rhe k.pt.1 % 65536), Int.toNat (rhe k.pt.2 % 65536))

/-- `np.around(keypoints[0].size/2)`. -/
def kpRadius (k : KeyPt) : ℤ := rhe (k.size / 2)

/-- The `analyzeFrame` loop.  `rd` is the entry timestamp, the second
argument is the `nocircle` counter. -/
def gateRun (rd : ℕ) : ℕ → List Obs → GateResult
  | _, [] => ⟨none, 0, 0, 0⟩
  | n, o :: rest =>
    if o.ret = false then gateRun rd n rest
    else if 25 < n then
      let g := gateRun rd 0 rest
      { g with errors := g.errors + 1 }
    else
      match o.keypoints with
      | [] =>
        if 25 < o.t - rd then
          let g := gateRun rd (n + 1) rest
          { g with misses := g.misses + 1 }
        else gateRun rd n rest
      | [k] => ⟨some (kpCenter k, kpRadius k), 0, 0, 0⟩
      | _ =>
        if 25 < o.t - rd then
          let g := gateRun rd n rest
          { g with ambigs := g.ambigs + 1 }
        else gateRun rd n rest

/-! ### The least-squares solver: `CalibrateNozzles.least_square_mapping`
(source lines 1058–1068) -/

/-- The 6×2 transform matrix. -/
abbrev TMat := Matrix (Fin 6) (Fin 2) ℚ

/-- The quadratic feature vector with trailing constant 1, used when
fitting the transform (a row of the design matrix `A`). -/
def fitVec (x y : ℚ) : Fin 6 → ℚ := ![x ^ 2, y ^ 2, x * y, x, y, 1]

/-- The quadratic feature vector with trailing 0 used by the convergence
loop (source line 1000). -/
def dispVec (x y : ℚ) : Fin 6 → ℚ := ![x ^ 2, y ^ 2, x * y, x, y, 0]

/-- `transform_matrix.T @ v`, component `j`. -/
def tApply (T : TMat) (v : Fin 6 → ℚ) (j : Fin 2) : ℚ := ∑ k, T k j * v k

/-- Row of the design matrix for a normalized pixel coordinate:
`A = np.vstack([x**2, y**2, x*y, x, y, ones(n)]).T`. -/
def designRow (p : ℚ × ℚ) : Fin 6 → ℚ := fitVec p.1 p.2

/-- The design matrix of a list of normalized pixel coordinates. -/
def designMatrix {n : ℕ} (pts : Fin n → ℚ × ℚ) : Matrix (Fin n) (Fin 6) ℚ :=
  Matrix.of fun i => designRow (pts i)

/-- The right-hand side `real_coords`: machine coordinates of the samples.
A calibration point is a pair `(machine coordinate, pixel coordinate)`,
in the order the source builds `transform_input`. -/
def realMat {n : ℕ} (samples : Fin n → (ℚ × ℚ) × (ℚ × ℚ)) : Matrix (Fin n) (Fin 2) ℚ :=
  Matrix.of fun i => ![(samples i).1.1, (samples i).1.2]

/-- Squared Frobenius norm (sum over both columns of the squared
residuals). -/
def frobSq {m n : ℕ} (M : Matrix (Fin m) (Fin n) ℚ) : ℚ := ∑ i, ∑ j, (M i j) ^ 2

/-- `T` minimises the least-squares objective `‖A·T − R‖²`. -/
def IsLstsqSol {n : ℕ} (A : Matrix (Fin n) (Fin 6) ℚ) (R : Matrix (Fin n) (Fin 2) ℚ)
    (T : TMat) : Prop :=
  ∀ T' : TMat, frobSq (A * T - R) ≤ frobSq (A * T' - R)

/-- `T` is the minimum-norm least-squares solution, the solution
`np.linalg.lstsq` returns. -/
def IsLstsqMinNorm {n : ℕ} (A : Matrix (Fin n) (Fin 6) ℚ) (R : Matrix (Fin n) (Fin 2) ℚ)
    (T : TMat) : Prop :=
  IsLstsqSol A R T ∧ ∀ T' : TMat, IsLstsqSol A R T' → frobSq T ≤ frobSq T'

/-- `CalibrateNozzles.least_square_mapping`, modeled relationally: the call
`np.linalg.lstsq(A, real_coords, rcond=None)` is specified by its
mathematical contract, the residual-minimising solution of minimum
Frobenius norm; the function returns that solution together with
`transform[1].mean()`, the mean of the two per-column residual sums.
(For a rank-deficient design matrix numpy returns an *empty* residual
array — its mean is NaN — and no exception is raised; the relation records
the residual value the code is written to compute, and no failure
channel exists because the source has none.) -/
def least_square_mapping_spec {n : ℕ} (calibration_points : Fin n → (ℚ × ℚ) × (ℚ × ℚ))
    (T : TMat) (resid : ℚ) : Prop :=
  IsLstsqMinNorm (designMatrix fun i => (calibration_points i).2)
    (realMat calibration_points) T
  ∧ resid = frobSq ((designMatrix fun i => (calibration_points i).2) * T
      - realMat calibration_points) / 2

/-! ### Per-tool controller: `CalibrateNozzles.calibrateTool`
(source lines 861–1052)

The Python `while True` loop is embedded as a recursion over the list of
detections returned by `analyzeFrame` (a `Detection` carries the keypoint
pixel location `self.xy` and the machine coordinates
`self.tool_coordinates`).  All mutable instance fields the loop touches
are carried in `CalibState`.  The `np.linalg.lstsq` call reached in state
10 is taken as an explicit function parameter of the configuration
(`least_square_mapping_spec` above is its mathematical contract). -/

/-- One detection returned by `analyzeFrame`: pixel coordinates and the
machine coordinates captured for that frame. -/
structure Detection where
  xy : ℚ × ℚ
  tool : ℚ × ℚ
deriving DecidableEq

/-- The per-tool-per-cycle result dict emitted through `result_update`
(source lines 1039–1045) and later serialised verbatim into the JSON
export (`App.analyzeResults`, lines 2191–2199).  The dict has exactly the
keys `tool, cycle, mpp, X, Y`; its values are decimal strings — `str` of
the two integers, `str` of the float `mpp`, and 3-decimal formatting of
the two offsets — modeled here by the exact numbers they denote. -/
structure ResultRecord where
  tool : ℕ
  cycle : ℕ
  mpp : ℚ
  X : ℚ
  Y : ℚ
deriving DecidableEq

/-- A motion command issued through `printer.gCode`: a relative
(`G91 G1 X.. Y..`) or absolute (`G90 G1 X.. Y..`) move. -/
inductive GMove
  | rel (x y : ℚ)
  | absMove (x y : ℚ)
deriving DecidableEq

/-- The mutable state of the `calibrateTool` loop. -/
structure CalibState where
  state : ℕ
  average_location : ℚ × ℚ
  detect_count : ℕ
  oldxy : ℚ × ℚ
  offsetX : ℚ
  offsetY : ℚ
  mpp : ℚ
  space_coordinates : List (ℚ × ℚ)
  camera_coordinates : List (ℚ × ℚ)
  transform_input : List ((ℚ × ℚ) × (ℚ × ℚ))
  transform : TMat
  calibration_moves : ℕ

/-- Ambient configuration of one `calibrateTool` call: frame dimensions
(the globals `camera_width`, `camera_height`), the controlled-point
coordinates `self.cp_coordinates`, the printer's G10 tool offset, the
least-squares solver (the `np.linalg.lstsq` call), and the `tool`/`rep`
arguments. -/
structure CalCfg where
  w : ℚ
  h : ℚ
  cp : ℚ × ℚ
  g10 : ℚ × ℚ
  solver : List ((ℚ × ℚ) × (ℚ × ℚ)) → TMat × ℚ
  tool : ℕ
  rep : ℕ

/-- The fixed 10-move calibration sweep (source line 883). -/
def calibrationCoordinates : List (ℚ × ℚ) :=
  [(0, -1/2), (294/1000, -405/1000), (476/1000, -155/1000), (476/1000, 155/1000),
   (294/1000, 405/1000), (0, 1/2), (-294/1000, 405/1000), (-476/1000, 155/1000),
   (-476/1000, -155/1000), (-294/1000, -405/1000)]

/-- `CalibrateNozzles.normalize_coords` (source lines 1054–1056), with the
frame dimensions passed explicitly. -/
def normalize_coords (w h : ℚ) (coords : ℚ × ℚ) : ℚ × ℚ :=
  (coords.1 / w - 1/2, coords.2 / h - 1/2)

/-- The offsets computed in state 200 (source lines 999–1003):
`-1*(0.55*transform_matrix.T @ v)` with `v` the trailing-0 feature vector
of the normalized detection, each axis rounded to 3 decimals. -/
def convergeOffsets (T : TMat) (w h : ℚ) (p : ℚ × ℚ) : ℚ × ℚ :=
  let c := normalize_coords w h p
  let v := dispVec c.1 c.2
  (roundTo 3 (-(0.55 * tApply T v 0)), roundTo 3 (-(0.55 * tApply T v 1)))

/-- The final machine-space offset (source lines 1015–1016):
`np.around((cp + tool_offsets) - tool_coordinates, 3)` per axis. -/
def finalOffset (cp g10 pos : ℚ × ℚ) : ℚ × ℚ :=
  (roundTo 3 ((cp.1 + g10.1) - pos.1), roundTo 3 ((cp.2 + g10.2) - pos.2))

/-- The state-dispatch part of the `calibrateTool` loop body (source lines
914–1049), executed on the confirming detection `d` once the averaging
threshold has been met.  Returns the updated state, the moves issued, and
the result record if the convergence loop terminated. -/
def stateProcess (cfg : CalCfg) (s : CalibState) (d : Detection) :
    CalibState × List GMove × Option ResultRecord :=
  if s.state = 0 then
    let c0 := calibrationCoordinates.getD 0 (0, 0)
    ({ s with oldxy := d.xy,
              space_coordinates := [d.tool],
              camera_coordinates := [d.xy],
              offsetX := c0.1, offsetY := c0.2,
              state := 1 },
     [GMove.rel c0.1 c0.2], none)
  else if s.state < 10 then
    let mpp' := if s.state = 1 then
        roundTo 4 ((1/2) / getDistance s.oldxy.1 s.oldxy.2 d.xy.1 d.xy.2)
      else s.mpp
    let ck := calibrationCoordinates.getD s.state (0, 0)
    ({ s with mpp := mpp',
              oldxy := d.xy,
              space_coordinates := s.space_coordinates ++ [d.tool],
              camera_coordinates := s.camera_coordinates ++ [d.xy],
              offsetX := ck.1, offsetY := ck.2,
              state := s.state + 1 },
     [GMove.rel (-s.offsetX) (-s.offsetY), GMove.rel ck.1 ck.2], none)
  else if s.state = 10 then
    let space' := s.space_coordinates ++ [d.tool]
    let camera' := s.camera_coordinates ++ [d.xy]
    let input := space'.zip (camera'.map (normalize_coords cfg.w cfg.h))
    let tr := cfg.solver input
    let guess := (roundTo 3 (tApply tr.1 (fitVec 0 0) 0), roundTo 3 (tApply tr.1 (fitVec 0 0) 1))
    ({ s with oldxy := d.xy,
              space_coordinates := space',
              camera_coordinates := camera',
              transform_input := input,
              transform := tr.1,
              state := 200 },
     [GMove.absMove guess.1 guess.2], none)
  else if s.state = 200 then
    let offs := convergeOffsets s.transform cfg.w cfg.h d.xy
    let s' := { s with calibration_moves := s.calibration_moves + 1, oldxy := d.xy }
    if offs.1 = 0 ∧ offs.2 = 0 then
      let fo := finalOffset cfg.cp cfg.g10 d.tool
      (s', [GMove.rel offs.1 offs.2], some ⟨cfg.tool, cfg.rep, s.mpp, fo.1, fo.2⟩)
    else
      (s', [GMove.rel offs.1 offs.2], none)
  else (s, [], none)

/-- Accumulation step at the top of the loop (source lines 897–902). -/
def accumDet (s : CalibState) (d : Detection) : CalibState :=
  { s with
    average_location := (s.average_location.1 + d.xy.1, s.average_location.2 + d.xy.2),
    detect_count := s.detect_count + 1 }

/-- Averaging step (source lines 905–910): divide by `detect_count` and
round both components to 3 decimals. -/
def averageRound (s : CalibState) : CalibState :=
  { s with average_location :=
      (roundTo 3 (s.average_location.1 / (s.detect_count : ℚ)),
       roundTo 3 (s.average_location.2 / (s.detect_count : ℚ))) }

/-- Result of running `calibrateTool` on a finite stream of detections:
either the function returned a result, or the stream ran out first. -/
inductive RunOut
  | done (r : ResultRecord) (rest : List Detection)
  | starve (s : CalibState)

/-- The `calibrateTool` `while True` loop over a stream of detections.
Each pass consumes one detection (accumulated into `average_location`);
once `detect_count >= 5` — `position_iterations` is 5 — the pass consumes
a second, confirming detection and dispatches on the state. -/
def runCalib (cfg : CalCfg) : CalibState → List Detection → List GMove × RunOut
  | s, [] => ([], .starve s)
  | s, d :: ds =>
    let s1 := accumDet s d
    if s1.detect_count < 5 then runCalib cfg s1 ds
    else
      match ds with
      | [] => ([], .starve s1)
      | d2 :: ds2 =>
        let s2 := averageRound s1
        let (s3, mvs, r?) := stateProcess cfg s2 d2
        match r? with
        | some r => (mvs, .done r ds2)
        | none =>
          let (mvs', out) := runCalib cfg s3 ds2
          (mvs ++ mvs', out)

/-- Initial state of a `calibrateTool` call (source lines 861–894): state
200 when a transform matrix is already defined, state 0 otherwise. -/
def initState (pre : Option TMat) : CalibState :=
  { state := if pre.isSome then 200 else 0,
    average_location := (0, 0),
    detect_count := 0,
    oldxy := (0, 0),
    offsetX := 0, offsetY := 0,
    mpp := 0,
    space_coordinates := [], camera_coordinates := [],
    transform_input := [],
    transform := pre.getD (Matrix.of fun _ _ => 0),
    calibration_moves := 0 }

/-- Extract the starvation state of a run, if any. -/
def starveState : RunOut → Option CalibState
  | .starve s => some s
  | .done _ _ => none

/-- Extract the emitted result record of a run, if any. -/
def doneRecord : RunOut → Option ResultRecord
  | .done r _ => some r
  | .starve _ => none

/-! ### Concrete sample values used to instantiate the theorems -/

/-- The zero transform matrix. -/
def TzM : TMat := Matrix.of fun _ _ => 0

/-- A sample configuration: 640×480 frame, controlled point (100, 100),
zero G10 offset, a solver constantly returning the zero matrix. -/
def cfgZ : CalCfg :=
  { w := 640, h := 480, cp := (100, 100), g10 := (0, 0),
    solver := fun _ => (TzM, 0), tool := 2, rep := 0 }

/-- A detection at pixel (0, 0) with machine coordinates (0, 0). -/
def detZ : Detection := ⟨(0, 0), (0, 0)⟩

/-- A detection at the frame center of `cfgZ`, machine position
(98.5, 101.2). -/
def detC : Detection := ⟨(320, 240), (98.5, 101.2)⟩

/-- A family of distinct detections: pixel `(10k, 10k)`. -/
def detD (k : ℕ) : Detection := ⟨((10 * k : ℚ), (10 * k : ℚ)), (0, 0)⟩

/-- The initial controller state with the state tracker forced to `st`. -/
def stateAt (st : ℕ) : CalibState := { initState none with state := st }

/-- A controller state at the final sweep step with ten collected
samples. -/
def s10 : CalibState :=
  { stateAt 10 with
    camera_coordinates := List.replicate 10 (0, 0),
    space_coordinates := List.replicate 10 (0, 0) }

/-- The initial controller state with four detections already
accumulated. -/
def s4 : CalibState := { initState none with detect_count := 4 }

/-- A frame pass with no circle found, 1000 ms after entry. -/
def failObs : Obs := ⟨true, [], 2000⟩

/-- A keypoint near the frame center. -/
def succKp : KeyPt := ⟨(320.2, 239.6), 10⟩

/-- A frame pass with exactly one keypoint. -/
def succObs : Obs := ⟨true, [succKp], 2000⟩

/-- A frame pass with two keypoints. -/
def ambigObs : Obs := ⟨true, [succKp, succKp], 2000⟩

/-- Noise-free calibration samples generated from a known transform `T`:
the machine displacement of each sample is `T.T @ fitVec(pixel)`. -/
def sampleOf (T : TMat) (pix : Fin 10 → ℚ × ℚ) : Fin 10 → (ℚ × ℚ) × (ℚ × ℚ) :=
  fun i => ((tApply T (fitVec (pix i).1 (pix i).2) 0,
             tApply T (fitVec (pix i).1 (pix i).2) 1), pix i)

/-- Ten normalized pixel positions whose design matrix has full column
rank. -/
def pix6 : Fin 10 → ℚ × ℚ := fun i =>
  if i.val = 1 then (1, 0)
  else if i.val = 2 then (-1, 0)
  else if i.val = 3 then (0, 1)
  else if i.val = 4 then (0, -1)
  else if i.val = 5 then (1, 1)
  else (0, 0)

/-- Ten coincident (hence collinear, degenerate) pixel positions. -/
def pixC : Fin 10 → ℚ × ℚ := fun _ => (0, 0)

/-- Ten identical degenerate samples with machine displacement `m` and
pixel position (0, 0). -/
def constSamples (m : ℚ × ℚ) : Fin 10 → (ℚ × ℚ) × (ℚ × ℚ) := fun _ => (m, (0, 0))

/-- The matrix whose sixth (constant-term) row is `m` and all other rows
are zero: the minimum-norm least-squares solution for `constSamples m`. -/
def rowMat (m : ℚ × ℚ) : TMat :=
  Matrix.of fun k j => if k = 5 then ![m.1, m.2] j else 0

/-- A transform whose value cannot be recovered from coincident samples:
its entry (0,0) is 1 but every sample it generates at pixel (0,0) is
zero. -/
def T0ce : TMat := Matrix.of fun k j => if k = 0 ∧ j = 0 then 1 else 0

/-! ## Helper lemmas -/

theorem rhe_intCast (z : ℤ) : rhe (z : ℚ) = z := by
  unfold rhe
  simp

theorem roundTo_idem (d : ℕ) (q : ℚ) : roundTo d (roundTo d q) = roundTo d q := by
  unfold roundTo
  have h10 : ((10 ^ d : ℕ) : ℚ) ≠ 0 := by positivity
  rw [div_mul_cancel₀ _ h10, rhe_intCast]

theorem rhe_le_half (q : ℚ) : |(rhe q : ℚ) - q| ≤ 1/2 := by
  unfold rhe
  have h0 : (⌊q⌋ : ℚ) ≤ q := Int.floor_le q
  have h1 : q < (⌊q⌋ : ℚ) + 1 := Int.lt_floor_add_one q
  by_cases hlt : q - (⌊q⌋ : ℚ) < 1/2
  · simp only [hlt, if_true]
    rw [abs_le]
    constructor <;> linarith
  · simp only [hlt, if_false]
    by_cases hgt : 1/2 < q - (⌊q⌋ : ℚ)
    · simp only [hgt, if_true]
      rw [abs_le]
      push_cast
      constructor <;> linarith
    · have heq : q - (⌊q⌋ : ℚ) = 1/2 := le_antisymm (not_lt.mp hgt) (not_lt.mp hlt)
      simp only [hgt, if_false]
      by_cases hev : ⌊q⌋ % 2 = 0 <;> simp only [hev, if_true, if_false] <;>
        rw [abs_le] <;> push_cast <;> constructor <;> linarith

theorem roundTo_close (d : ℕ) (q : ℚ) :
    |roundTo d q - q| ≤ 1 / (2 * (10 ^ d : ℕ)) := by
  have h10 : (0 : ℚ) < ((10 ^ d : ℕ) : ℚ) := by positivity
  have hkey : roundTo d q - q
      = ((rhe (q * (10 ^ d : ℕ)) : ℚ) - q * (10 ^ d : ℕ)) / (10 ^ d : ℕ) := by
    unfold roundTo
    field_simp
    ring
  rw [hkey, abs_div, abs_of_pos h10, div_le_iff₀ h10]
  have hP : 1 / (2 * ((10 ^ d : ℕ) : ℚ)) * ((10 ^ d : ℕ) : ℚ) = 1/2 := by
    field_simp
    ring
  rw [hP]
  exact rhe_le_half (q * (10 ^ d : ℕ))

theorem sqrtScaled_close (s : ℚ) (hs : 0 ≤ s) :
    |(sqrtScaled s : ℝ) - Real.sqrt (1000000 * s)| ≤ 1/2 := by
  have hx0 : (0 : ℝ) ≤ 1000000 * (s : ℝ) := by positivity
  set y : ℝ := Real.sqrt (1000000 * (s : ℝ)) with hy
  have hy0 : 0 ≤ y := Real.sqrt_nonneg _
  have hy2 : y ^ 2 = 1000000 * (s : ℝ) := Real.sq_sqrt hx0
  set m : ℕ := Int.toNat ⌊4 * (1000000 * s)⌋ with hm
  set j : ℕ := Nat.sqrt m with hj
  have hmx : (m : ℝ) ≤ 4 * (1000000 * (s : ℝ)) := by
    have h1 : ((Int.toNat ⌊4 * (1000000 * s)⌋ : ℤ) : ℚ) ≤ 4 * (1000000 * s) := by
      rw [Int.toNat_of_nonneg (Int.floor_nonneg.mpr (by positivity))]
      exact Int.floor_le _
    have h2 : ((m : ℤ) : ℚ) ≤ 4 * (1000000 * s) := h1
    exact_mod_cast h2
  have hxm : 4 * (1000000 * (s : ℝ)) < (m : ℝ) + 1 := by
    have h1 : 4 * (1000000 * s) < ((Int.toNat ⌊4 * (1000000 * s)⌋ : ℤ) : ℚ) + 1 := by
      rw [Int.toNat_of_nonneg (Int.floor_nonneg.mpr (by positivity))]
      exact Int.lt_floor_add_one _
    have h2 : 4 * (1000000 * s) < ((m : ℤ) : ℚ) + 1 := h1
    exact_mod_cast h2
  -- `j ≤ 2y` and `2y < j + 1`
  have hyy : y * y = 1000000 * (s : ℝ) := by rw [← hy2]; ring
  have hjm : (j : ℝ) * (j : ℝ) ≤ (m : ℝ) := by
    have h := Nat.sqrt_le' m
    have h2 : ((Nat.sqrt m ^ 2 : ℕ) : ℝ) ≤ (m : ℝ) := by exact_mod_cast h
    push_cast at h2
    rw [hj]
    nlinarith
  have hmj : (m : ℝ) + 1 ≤ ((j : ℝ) + 1) * ((j : ℝ) + 1) := by
    have h := Nat.succ_le_of_lt (Nat.lt_succ_sqrt' m)
    have h2 : ((m + 1 : ℕ) : ℝ) ≤ ((Nat.succ (Nat.sqrt m) ^ 2 : ℕ) : ℝ) := by
      exact_mod_cast h
    push_cast at h2
    rw [hj]
    nlinarith
  have hj_le : (j : ℝ) ≤ 2 * y := by
    by_contra hcon
    push_neg at hcon
    have hsq : (2 * y) * (2 * y) < (j : ℝ) * (j : ℝ) :=
      mul_self_lt_mul_self (by positivity) hcon
    nlinarith
  have hj_lt : 2 * y < (j : ℝ) + 1 := by
    by_contra hcon
    push_neg at hcon
    have hj1 : (0 : ℝ) ≤ (j : ℝ) + 1 := by positivity
    have hsq : ((j : ℝ) + 1) * ((j : ℝ) + 1) ≤ (2 * y) * (2 * y) :=
      mul_le_mul hcon hcon hj1 (by linarith)
    nlinarith
  have hss : sqrtScaled s = (j + 1) / 2 := rfl
  rcases Nat.even_or_odd j with he | ho
  · obtain ⟨a, ha⟩ := he
    have hsq : sqrtScaled s = a := by
      rw [hss, ha]
      omega
    have hja : (j : ℝ) = (a : ℝ) + (a : ℝ) := by exact_mod_cast congrArg (Nat.cast : ℕ → ℝ) ha
    rw [hsq, abs_le]
    constructor <;> linarith
  · obtain ⟨a, ha⟩ := ho
    have hsq : sqrtScaled s = a + 1 := by
      rw [hss, ha]
      omega
    have hja : (j : ℝ) = 2 * (a : ℝ) + 1 := by exact_mod_cast congrArg (Nat.cast : ℕ → ℝ) ha
    rw [hsq, abs_le]
    push_cast
    constructor <;> linarith

theorem frobSq_nonneg {m n : ℕ} (M : Matrix (Fin m) (Fin n) ℚ) : 0 ≤ frobSq M := by
  unfold frobSq
  positivity

theorem frobSq_eq_zero_iff {m n : ℕ} (M : Matrix (Fin m) (Fin n) ℚ) :
    frobSq M = 0 ↔ ∀ i j, M i j = 0 := by
  unfold frobSq
  rw [Finset.sum_eq_zero_iff_of_nonneg (fun i _ => by positivity)]
  constructor
  · intro h i j
    have hi := h i (Finset.mem_univ i)
    rw [Finset.sum_eq_zero_iff_of_nonneg (fun j _ => by positivity)] at hi
    have hij := hi j (Finset.mem_univ j)
    exact pow_eq_zero_iff (n := 2) (by norm_num) |>.mp hij
  · intro h i _
    apply Finset.sum_eq_zero
    intro j _
    rw [h i j]
    norm_num

/-! ## Claims -/

theorem stateProcess_state0 (cfg : CalCfg) (s : CalibState) (d : Detection)
    (h : s.state = 0) :
    stateProcess cfg s d =
      ({ s with oldxy := d.xy,
                space_coordinates := [d.tool],
                camera_coordinates := [d.xy],
                offsetX := (calibrationCoordinates.getD 0 (0, 0)).1,
                offsetY := (calibrationCoordinates.getD 0 (0, 0)).2,
                state := 1 },
       [GMove.rel (calibrationCoordinates.getD 0 (0, 0)).1
          (calibrationCoordinates.getD 0 (0, 0)).2], none) := by
  unfold stateProcess
  rw [if_pos h]

theorem stateProcess_sweep (cfg : CalCfg) (s : CalibState) (d : Detection)
    (h1 : s.state ≠ 0) (h2 : s.state < 10) :
    stateProcess cfg s d =
      ({ s with mpp := if s.state = 1 then
                  roundTo 4 ((1/2) / getDistance s.oldxy.1 s.oldxy.2 d.xy.1 d.xy.2)
                else s.mpp,
                oldxy := d.xy,
                space_coordinates := s.space_coordinates ++ [d.tool],
                camera_coordinates := s.camera_coordinates ++ [d.xy],
                offsetX := (calibrationCoordinates.getD s.state (0, 0)).1,
                offsetY := (calibrationCoordinates.getD s.state (0, 0)).2,
                state := s.state + 1 },
       [GMove.rel (-s.offsetX) (-s.offsetY),
        GMove.rel (calibrationCoordinates.getD s.state (0, 0)).1
          (calibrationCoordinates.getD s.state (0, 0)).2], none) := by
  unfold stateProcess
  rw [if_neg h1, if_pos h2]

theorem stateProcess_state10 (cfg : CalCfg) (s : CalibState) (d : Detection)
    (h : s.state = 10) :
    stateProcess cfg s d =
      ({ s with oldxy := d.xy,
                space_coordinates := s.space_coordinates ++ [d.tool],
                camera_coordinates := s.camera_coordinates ++ [d.xy],
                transform_input := (s.space_coordinates ++ [d.tool]).zip
                  ((s.camera_coordinates ++ [d.xy]).map (normalize_coords cfg.w cfg.h)),
                transform := (cfg.solver ((s.space_coordinates ++ [d.tool]).zip
                  ((s.camera_coordinates ++ [d.xy]).map (normalize_coords cfg.w cfg.h)))).1,
                state := 200 },
       [GMove.absMove
          (roundTo 3 (tApply (cfg.solver ((s.space_coordinates ++ [d.tool]).zip
            ((s.camera_coordinates ++ [d.xy]).map (normalize_coords cfg.w cfg.h)))).1
              (fitVec 0 0) 0))
          (roundTo 3 (tApply (cfg.solver ((s.space_coordinates ++ [d.tool]).zip
            ((s.camera_coordinates ++ [d.xy]).map (normalize_coords cfg.w cfg.h)))).1
              (fitVec 0 0) 1))], none) := by
  unfold stateProcess
  rw [if_neg (by omega), if_neg (by omega), if_pos h]

theorem stateProcess_state200 (cfg : CalCfg) (s : CalibState) (d : Detection)
    (h : s.state = 200) :
    stateProcess cfg s d =
      (let offs := convergeOffsets s.transform cfg.w cfg.h d.xy
       let s' := { s with calibration_moves := s.calibration_moves + 1, oldxy := d.xy }
       if offs.1 = 0 ∧ offs.2 = 0 then
         (s', [GMove.rel offs.1 offs.2],
          some ⟨cfg.tool, cfg.rep, s.mpp, (finalOffset cfg.cp cfg.g10 d.tool).1,
            (finalOffset cfg.cp cfg.g10 d.tool).2⟩)
       else (s', [GMove.rel offs.1 offs.2], none)) := by
  unfold stateProcess
  rw [if_neg (by omega), if_neg (by omega), if_neg (by omega), if_pos h]


theorem sqrtScaled_eval (s : ℚ) (m n : ℕ)
    (hm : ⌊4 * (1000000 * s)⌋ = (m : ℤ)) (hs : Nat.sqrt m = n) :
    sqrtScaled s = (n + 1) / 2 := by
  unfold sqrtScaled
  rw [hm, Int.toNat_natCast, hs]

theorem getDistance_eval (x1 y1 x0 y0 : ℚ) (m n : ℕ)
    (hm : ⌊4 * (1000000 * ((x1 - x0) ^ 2 + (y1 - y0) ^ 2))⌋ = (m : ℤ))
    (hs : Nat.sqrt m = n) :
    getDistance x1 y1 x0 y0 = (((n + 1) / 2 : ℕ) : ℚ) / 1000 := by
  unfold getDistance sqrtRound3
  rw [sqrtScaled_eval _ m n hm hs]

/-- C1: in state 200, for a confirmed detection at pixel `(px, py)` in a
`w`×`h` frame the controller computes `x = px/w - 0.5`, `y = py/h - 0.5`,
builds `v = [x², y², x·y, x, y, 0]`, computes
`offset = -0.55 · Tᵀ · v` rounded per axis to 3 decimals, terminates
(emits a result) iff the rounded offset is `(0, 0)`, always issues the
relative move, and otherwise remains in state 200. -/
theorem convergence_step_spec (cfg : CalCfg) (s : CalibState) (d : Detection)
    (h : s.state = 200) :
    convergeOffsets s.transform cfg.w cfg.h d.xy
      = (roundTo 3 (-(0.55 * tApply s.transform
            (dispVec (d.xy.1 / cfg.w - 1/2) (d.xy.2 / cfg.h - 1/2)) 0)),
         roundTo 3 (-(0.55 * tApply s.transform
            (dispVec (d.xy.1 / cfg.w - 1/2) (d.xy.2 / cfg.h - 1/2)) 1)))
    ∧ (stateProcess cfg s d).2.1
      = [GMove.rel (convergeOffsets s.transform cfg.w cfg.h d.xy).1
          (convergeOffsets s.transform cfg.w cfg.h d.xy).2]
    ∧ ((stateProcess cfg s d).2.2.isSome
        ↔ convergeOffsets s.transform cfg.w cfg.h d.xy = (0, 0))
    ∧ ((stateProcess cfg s d).2.2 = none → (stateProcess cfg s d).1.state = 200) := by
  refine ⟨rfl, ?_⟩
  rw [stateProcess_state200 cfg s d h]
  by_cases hz : (convergeOffsets s.transform cfg.w cfg.h d.xy).1 = 0
      ∧ (convergeOffsets s.transform cfg.w cfg.h d.xy).2 = 0
  · simp only [hz, and_self, if_true, ite_true]
    refine ⟨trivial, ?_, ?_⟩
    · simp [Prod.ext_iff, hz.1, hz.2]
    · intro hc
      simp at hc
  · simp only [hz, if_false, ite_false]
    refine ⟨trivial, ?_, ?_⟩
    · simp only [Option.isSome_none, Bool.false_eq_true, false_iff, Prod.ext_iff]
      exact fun hh => hz ⟨hh.1, hh.2⟩
    · intro _
      exact h

/-- C2: when the convergence loop terminates, the emitted offset is
`(controlledPoint + currentG10ToolOffset) - currentToolMachinePosition`
rounded per axis to 3 decimals; for controlled point (100, 100), tool
offset (0, 0) and machine position (98.5, 101.2) this is (1.5, -1.2). -/
theorem final_offset_spec (cfg : CalCfg) (s : CalibState) (d : Detection) (r : ResultRecord)
    (h : s.state = 200) (hr : (stateProcess cfg s d).2.2 = some r) :
    (r.X, r.Y) = finalOffset cfg.cp cfg.g10 d.tool
    ∧ finalOffset (100, 100) (0, 0) (98.5, 101.2) = (1.5, -1.2) := by
  constructor
  · rw [stateProcess_state200 cfg s d h] at hr
    by_cases hz : (convergeOffsets s.transform cfg.w cfg.h d.xy).1 = 0
        ∧ (convergeOffsets s.transform cfg.w cfg.h d.xy).2 = 0
    · simp only [hz, and_self, if_true, ite_true, Option.some_inj] at hr
      rw [← hr]
    · simp only [hz, if_false, ite_false] at hr
      exact absurd hr (by simp)
  · unfold finalOffset roundTo rhe
    norm_num [Int.floor_intCast]

/-- C10: when the two first detections coincide, `getDistance` is 0
and the state-1 `mpp` computation divides 0.5 by that zero with no guard
(in the rational model division by zero yields 0, so `mpp` becomes
`roundTo 4 (0.5 / 0) = 0`); the division-by-zero branch is reachable. -/
theorem mpp_zero_divisor (cfg : CalCfg) (s : CalibState) (d : Detection)
    (h1 : s.state = 1) (h2 : d.xy = s.oldxy) :
    getDistance s.oldxy.1 s.oldxy.2 d.xy.1 d.xy.2 = 0
    ∧ (stateProcess cfg s d).1.mpp = roundTo 4 ((1/2) / 0)
    ∧ roundTo 4 ((1/2) / (0 : ℚ)) = 0 := by
  have hd : getDistance s.oldxy.1 s.oldxy.2 d.xy.1 d.xy.2 = 0 := by
    rw [h2, getDistance_eval _ _ _ _ 0 0 (by norm_num) (by norm_num)]
    norm_num
  refine ⟨hd, ?_, ?_⟩
  · rw [stateProcess_sweep cfg s d (by omega) (by omega)]
    simp only [h1, if_true, ite_true, hd]
  · unfold roundTo rhe
    norm_num

/-- C8 (amended): after the first calibration move the code sets
`mpp = round(0.5 / getDistance(oldxy, xy), 4)` where `getDistance`
returns the Euclidean distance *rounded to 3 decimals* (within 1/2000 of
the exact distance) — not the exact distance itself. -/
theorem mpp_rounded_distance (cfg : CalCfg) (s : CalibState) (d : Detection)
    (h : s.state = 1) :
    (stateProcess cfg s d).1.mpp
      = roundTo 4 ((1/2) / getDistance s.oldxy.1 s.oldxy.2 d.xy.1 d.xy.2)
    ∧ |(getDistance s.oldxy.1 s.oldxy.2 d.xy.1 d.xy.2 : ℝ)
        - Real.sqrt (((s.oldxy.1 - d.xy.1) ^ 2 + (s.oldxy.2 - d.xy.2) ^ 2 : ℚ) : ℝ)|
      ≤ 1/2000 := by
  constructor
  · rw [stateProcess_sweep cfg s d (by omega) (by omega)]
    simp only [h, if_true, ite_true]
  · set q : ℚ := (s.oldxy.1 - d.xy.1) ^ 2 + (s.oldxy.2 - d.xy.2) ^ 2 with hq
    have hq0 : 0 ≤ q := by positivity
    have hclose := sqrtScaled_close q hq0
    have hcast : Real.sqrt (1000000 * (q : ℝ)) = 1000 * Real.sqrt ((q : ℚ) : ℝ) := by
      rw [show (1000000 : ℝ) * (q : ℝ) = 1000 ^ 2 * (q : ℝ) by norm_num,
        Real.sqrt_mul (by positivity), Real.sqrt_sq (by norm_num)]
    have hgd : (getDistance s.oldxy.1 s.oldxy.2 d.xy.1 d.xy.2 : ℝ)
        = (sqrtScaled q : ℝ) / 1000 := by
      unfold getDistance sqrtRound3
      push_cast
      rw [← hq]
    rw [hgd]
    rw [show ((sqrtScaled q : ℝ) / 1000 - Real.sqrt ((q : ℚ) : ℝ))
        = ((sqrtScaled q : ℝ) - 1000 * Real.sqrt ((q : ℚ) : ℝ)) / 1000 by ring]
    rw [← hcast, abs_div]
    rw [show |(1000 : ℝ)| = 1000 by norm_num]
    rw [div_le_iff₀ (by norm_num)]
    calc |(sqrtScaled q : ℝ) - Real.sqrt (1000000 * (q : ℝ))| ≤ 1/2 := hclose
      _ = 1/2000 * 1000 := by norm_num

/-- C8 counterexample: for first two detections (0,0) and (3,3) the
code computes `mpp = 0.1178`, because `getDistance` rounds the distance
to 4.243 before the division; but `0.5/√18` lies strictly inside
(0.11785, 0.117853), so 0.1179 — not the code's 0.1178 — is the value of
`round(0.5/dist, 4)` for the *exact* Euclidean distance. -/
theorem mpp_exact_distance_refuted :
    roundTo 4 ((1/2) / getDistance 0 0 3 3) = 1178/10000
    ∧ getDistance 0 0 3 3 = 4243/1000
    ∧ |(1179/10000 : ℝ) - (1/2) / Real.sqrt 18|
        < |(1178/10000 : ℝ) - (1/2) / Real.sqrt 18| := by
  have hgd : getDistance 0 0 3 3 = 4243/1000 := by
    rw [getDistance_eval 0 0 3 3 72000000 8485 (by norm_num) (by norm_num)]
    norm_num
  refine ⟨?_, hgd, ?_⟩
  · rw [hgd]
    unfold roundTo rhe
    norm_num
  · have hs0 : 0 < Real.sqrt 18 := Real.sqrt_pos.mpr (by norm_num)
    have hs2 : Real.sqrt 18 ^ 2 = 18 := Real.sq_sqrt (by norm_num)
    have hlow : (42426 : ℝ)/10000 < Real.sqrt 18 := by nlinarith [hs0, hs2]
    have hhigh : Real.sqrt 18 < (424265 : ℝ)/100000 := by nlinarith [hs0, hs2]
    have hq1 : (11785 : ℝ)/100000 < (1/2) / Real.sqrt 18 := by
      rw [lt_div_iff₀ hs0]
      nlinarith
    have hq2 : (1/2) / Real.sqrt 18 < (117853 : ℝ)/1000000 := by
      rw [div_lt_iff₀ hs0]
      nlinarith
    rw [abs_of_pos (by linarith), abs_of_neg (by linarith)]
    linarith


theorem zero_transform_offsets :
    convergeOffsets (stateAt 200).transform cfgZ.w cfgZ.h detC.xy = (0, 0) := by
  unfold convergeOffsets tApply stateAt initState
  simp only [Option.getD_none, Matrix.of_apply, zero_mul, Finset.sum_const_zero,
    mul_zero, neg_zero, Prod.mk.injEq]
  unfold roundTo rhe
  norm_num

theorem convergence_step_spec_witness :
    (stateAt 200).state = 200
    ∧ (convergeOffsets (stateAt 200).transform cfgZ.w cfgZ.h detC.xy
        = (roundTo 3 (-(0.55 * tApply (stateAt 200).transform
              (dispVec (detC.xy.1 / cfgZ.w - 1/2) (detC.xy.2 / cfgZ.h - 1/2)) 0)),
           roundTo 3 (-(0.55 * tApply (stateAt 200).transform
              (dispVec (detC.xy.1 / cfgZ.w - 1/2) (detC.xy.2 / cfgZ.h - 1/2)) 1)))
      ∧ (stateProcess cfgZ (stateAt 200) detC).2.1
        = [GMove.rel (convergeOffsets (stateAt 200).transform cfgZ.w cfgZ.h detC.xy).1
            (convergeOffsets (stateAt 200).transform cfgZ.w cfgZ.h detC.xy).2]
      ∧ ((stateProcess cfgZ (stateAt 200) detC).2.2.isSome
          ↔ convergeOffsets (stateAt 200).transform cfgZ.w cfgZ.h detC.xy = (0, 0))
      ∧ ((stateProcess cfgZ (stateAt 200) detC).2.2 = none
          → (stateProcess cfgZ (stateAt 200) detC).1.state = 200)) :=
  ⟨rfl, convergence_step_spec cfgZ (stateAt 200) detC rfl⟩

theorem final_offset_spec_witness :
    (stateAt 200).state = 200
    ∧ (stateProcess cfgZ (stateAt 200) detC).2.2
        = some ⟨2, 0, 0, 1.5, -1.2⟩
    ∧ (((1.5 : ℚ), (-1.2 : ℚ)) = finalOffset cfgZ.cp cfgZ.g10 detC.tool
        ∧ finalOffset (100, 100) (0, 0) (98.5, 101.2) = (1.5, -1.2)) := by
  have hfo : finalOffset (100, 100) (0, 0) (98.5, 101.2) = ((1.5 : ℚ), (-1.2 : ℚ)) := by
    unfold finalOffset roundTo rhe
    norm_num
  have hr : (stateProcess cfgZ (stateAt 200) detC).2.2 = some ⟨2, 0, 0, 1.5, -1.2⟩ := by
    rw [stateProcess_state200 cfgZ (stateAt 200) detC rfl]
    simp only [zero_transform_offsets]
    simp only [cfgZ, stateAt, initState, detC]
    norm_num [finalOffset, roundTo, rhe]
  exact ⟨rfl, hr, final_offset_spec cfgZ (stateAt 200) detC _ rfl hr⟩

theorem mpp_zero_divisor_witness :
    (stateAt 1).state = 1
    ∧ detZ.xy = (stateAt 1).oldxy
    ∧ (getDistance (stateAt 1).oldxy.1 (stateAt 1).oldxy.2 detZ.xy.1 detZ.xy.2 = 0
        ∧ (stateProcess cfgZ (stateAt 1) detZ).1.mpp = roundTo 4 ((1/2) / 0)
        ∧ roundTo 4 ((1/2) / (0 : ℚ)) = 0) :=
  ⟨rfl, rfl, mpp_zero_divisor cfgZ (stateAt 1) detZ rfl rfl⟩

theorem mpp_rounded_distance_witness :
    (stateAt 1).state = 1
    ∧ ((stateProcess cfgZ (stateAt 1) detZ).1.mpp
        = roundTo 4 ((1/2) / getDistance (stateAt 1).oldxy.1 (stateAt 1).oldxy.2
            detZ.xy.1 detZ.xy.2)
      ∧ |(getDistance (stateAt 1).oldxy.1 (stateAt 1).oldxy.2 detZ.xy.1 detZ.xy.2 : ℝ)
          - Real.sqrt ((((stateAt 1).oldxy.1 - detZ.xy.1) ^ 2
              + ((stateAt 1).oldxy.2 - detZ.xy.2) ^ 2 : ℚ) : ℝ)| ≤ 1/2000) :=
  ⟨rfl, mpp_rounded_distance cfgZ (stateAt 1) detZ rfl⟩


/-- C6 (amended): a failing frame arriving more than 25 ms after the
pass began increments the no-detection counter; once the counter exceeds
25 (i.e. from the 26th counted failure) the next frame read signals a
detection error, resets the counter and keeps retrying (never fatal); a
frame with more than one feature warns and never returns; only a frame
with exactly one feature returns, yielding that feature's rounded pixel
center and radius — so a detection count other than 1 never advances the
controller. -/
theorem gate_spec :
    (∀ rd n o rest, o.ret = true → n ≤ 25 → o.keypoints = [] →
       gateRun rd n (o :: rest)
         = if 25 < o.t - rd
           then { gateRun rd (n + 1) rest with
                    misses := (gateRun rd (n + 1) rest).misses + 1 }
           else gateRun rd n rest)
    ∧ (∀ rd n o rest, o.ret = true → 25 < n →
       gateRun rd n (o :: rest)
         = { gateRun rd 0 rest with errors := (gateRun rd 0 rest).errors + 1 })
    ∧ (∀ rd n o k rest, o.ret = true → n ≤ 25 → o.keypoints = [k] →
       gateRun rd n (o :: rest) = ⟨some (kpCenter k, kpRadius k), 0, 0, 0⟩)
    ∧ (∀ rd n o k1 k2 ks rest, o.ret = true → n ≤ 25 → o.keypoints = k1 :: k2 :: ks →
       (gateRun rd n (o :: rest)).found = (gateRun rd n rest).found)
    ∧ (∀ rd n obs v, (gateRun rd n obs).found = some v →
       ∃ o ∈ obs, ∃ k, o.keypoints = [k] ∧ v = (kpCenter k, kpRadius k)) := by
  refine ⟨?_, ?_, ?_, ?_, ?_⟩
  · intro rd n o rest hret hn hk
    obtain ⟨ret, kps, t⟩ := o
    cases hret
    cases hk
    rw [gateRun]
    simp only [if_neg (by omega : ¬ (25 : ℕ) < n)]
    norm_num
  · intro rd n o rest hret hn
    obtain ⟨ret, kps, t⟩ := o
    cases hret
    rw [gateRun]
    simp only [if_pos hn]
    norm_num
  · intro rd n o k rest hret hn hk
    obtain ⟨ret, kps, t⟩ := o
    cases hret
    cases hk
    rw [gateRun]
    simp only [if_neg (by omega : ¬ (25 : ℕ) < n)]
    norm_num
  · intro rd n o k1 k2 ks rest hret hn hk
    obtain ⟨ret, kps, t⟩ := o
    cases hret
    cases hk
    rw [gateRun]
    simp only [if_neg (by omega : ¬ (25 : ℕ) < n)]
    norm_num
    split <;> rfl
  · intro rd n obs
    induction obs generalizing n with
    | nil =>
      intro v hv
      rw [gateRun] at hv
      simp at hv
    | cons o rest ih =>
      intro v hv
      rw [gateRun] at hv
      by_cases hb : o.ret = false
      · rw [if_pos hb] at hv
        obtain ⟨o', ho', hk⟩ := ih n _ hv
        exact ⟨o', List.mem_cons_of_mem _ ho', hk⟩
      · rw [if_neg hb] at hv
        by_cases h25 : 25 < n
        · rw [if_pos h25] at hv
          dsimp only at hv
          obtain ⟨o', ho', hk⟩ := ih 0 _ hv
          exact ⟨o', List.mem_cons_of_mem _ ho', hk⟩
        · rw [if_neg h25] at hv
          rcases hkp : o.keypoints with _ | ⟨k1, _ | ⟨k2, ks⟩⟩ <;> rw [hkp] at hv <;>
            dsimp only at hv
          · by_cases ht : 25 < o.t - rd
            · rw [if_pos ht] at hv
              dsimp only at hv
              obtain ⟨o', ho', hk⟩ := ih (n + 1) _ hv
              exact ⟨o', List.mem_cons_of_mem _ ho', hk⟩
            · rw [if_neg ht] at hv
              obtain ⟨o', ho', hk⟩ := ih n _ hv
              exact ⟨o', List.mem_cons_of_mem _ ho', hk⟩
          · exact ⟨o, List.mem_cons_self _ _, k1, hkp, (Option.some_inj.mp hv).symm⟩
          · by_cases ht : 25 < o.t - rd
            · rw [if_pos ht] at hv
              dsimp only at hv
              obtain ⟨o', ho', hk⟩ := ih n _ hv
              exact ⟨o', List.mem_cons_of_mem _ ho', hk⟩
            · rw [if_neg ht] at hv
              obtain ⟨o', ho', hk⟩ := ih n _ hv
              exact ⟨o', List.mem_cons_of_mem _ ho', hk⟩


/-- C6 counterexample: after 25 consecutive counted detection failures
the gate signals **no** detection error (`errors = 0`); the error fires
only once the counter exceeds 25. -/
theorem gate_error_after_25_refuted :
    gateRun 1000 0 (List.replicate 25 failObs ++ [succObs])
      = ⟨some ((320, 240), 5), 0, 0, 25⟩ := by
  with_unfolding_all rfl

theorem gate_spec_witness :
    (gateRun 1000 0 [failObs]
       = if 25 < failObs.t - 1000
         then { gateRun 1000 (0 + 1) [] with misses := (gateRun 1000 (0 + 1) []).misses + 1 }
         else gateRun 1000 0 [])
    ∧ (gateRun 1000 26 [succObs]
       = { gateRun 1000 0 [] with errors := (gateRun 1000 0 []).errors + 1 })
    ∧ gateRun 1000 0 [succObs] = ⟨some (kpCenter succKp, kpRadius succKp), 0, 0, 0⟩
    ∧ (gateRun 1000 0 [ambigObs]).found = (gateRun 1000 0 []).found
    ∧ ∃ o ∈ [succObs], ∃ k, o.keypoints = [k]
        ∧ (kpCenter succKp, kpRadius succKp) = (kpCenter k, kpRadius k) := by
  obtain ⟨h1, h2, h3, h4, h5⟩ := gate_spec
  exact ⟨h1 1000 0 failObs [] rfl (by omega) rfl,
         h2 1000 26 succObs [] rfl (by omega),
         h3 1000 0 succObs succKp [] rfl (by omega) rfl,
         h4 1000 0 ambigObs succKp succKp [] [] rfl (by omega) rfl,
         h5 1000 0 [succObs] _ (by with_unfolding_all rfl)⟩


/-- C4 (amended): each pass of states 0–10 appends exactly one
calibration sample, so the sweep collects 11 samples (initial position
plus one per sweep move) and the transform is computed from exactly those
11 samples (`transform_input` of length 11). -/
theorem sweep_sample_count :
    (∀ (cfg : CalCfg) (s : CalibState) (d : Detection), s.state = 0 →
       (stateProcess cfg s d).1.camera_coordinates.length = 1
       ∧ (stateProcess cfg s d).1.space_coordinates.length = 1
       ∧ (stateProcess cfg s d).1.state = 1)
    ∧ (∀ (cfg : CalCfg) (s : CalibState) (d : Detection), s.state ≠ 0 → s.state < 10 →
       (stateProcess cfg s d).1.camera_coordinates.length = s.camera_coordinates.length + 1
       ∧ (stateProcess cfg s d).1.space_coordinates.length = s.space_coordinates.length + 1
       ∧ (stateProcess cfg s d).1.state = s.state + 1)
    ∧ (∀ (cfg : CalCfg) (s : CalibState) (d : Detection), s.state = 10 →
       s.camera_coordinates.length = 10 → s.space_coordinates.length = 10 →
       (stateProcess cfg s d).1.transform_input.length = 11
       ∧ (stateProcess cfg s d).1.transform
           = (cfg.solver ((stateProcess cfg s d).1.transform_input)).1
       ∧ (stateProcess cfg s d).1.state = 200) := by
  refine ⟨?_, ?_, ?_⟩
  · intro cfg s d h
    rw [stateProcess_state0 cfg s d h]
    exact ⟨rfl, rfl, rfl⟩
  · intro cfg s d h1 h2
    rw [stateProcess_sweep cfg s d h1 h2]
    refine ⟨?_, ?_, rfl⟩ <;> simp [List.length_append]
  · intro cfg s d h hc hs
    rw [stateProcess_state10 cfg s d h]
    refine ⟨?_, rfl, rfl⟩
    simp [List.length_zip, List.length_append, List.length_map, hc, hs]

/-- C5 (amended): detections are accumulated into `average_location`
until `detect_count` reaches 5 (the counter is never reset); once the
threshold is met each pass consumes a second, confirming detection and
the state dispatch processes *that* confirming detection — the rounded
average is stored in `average_location` only, which `stateProcess`
carries through unread. -/
theorem averaging_unused :
    (∀ (cfg : CalCfg) (s : CalibState) (d : Detection) (ds : List Detection),
       (accumDet s d).detect_count < 5 →
       runCalib cfg s (d :: ds) = runCalib cfg (accumDet s d) ds)
    ∧ (∀ (s : CalibState) (d : Detection),
       (accumDet s d).detect_count = s.detect_count + 1
       ∧ (accumDet s d).average_location
           = (s.average_location.1 + d.xy.1, s.average_location.2 + d.xy.2))
    ∧ (∀ (cfg : CalCfg) (s : CalibState) (d d2 : Detection) (ds2 : List Detection),
       ¬ (accumDet s d).detect_count < 5 →
       runCalib cfg s (d :: d2 :: ds2)
         = (match (stateProcess cfg (averageRound (accumDet s d)) d2).2.2 with
            | some r => ((stateProcess cfg (averageRound (accumDet s d)) d2).2.1,
                RunOut.done r ds2)
            | none => ((stateProcess cfg (averageRound (accumDet s d)) d2).2.1
                  ++ (runCalib cfg (stateProcess cfg (averageRound (accumDet s d)) d2).1 ds2).1,
                (runCalib cfg (stateProcess cfg (averageRound (accumDet s d)) d2).1 ds2).2)))
    ∧ (∀ (cfg : CalCfg) (s : CalibState) (d : Detection) (a : ℚ × ℚ),
       stateProcess cfg { s with average_location := a } d
         = ({ (stateProcess cfg s d).1 with average_location := a },
            (stateProcess cfg s d).2)) := by
  refine ⟨?_, ?_, ?_, ?_⟩
  · intro cfg s d ds h
    rw [runCalib.eq_def]
    dsimp only
    simp only [if_pos h]
  · intro s d
    exact ⟨rfl, rfl⟩
  · intro cfg s d d2 ds2 h
    rw [runCalib.eq_def]
    dsimp only
    simp only [if_neg h]
  · intro cfg s d a
    unfold stateProcess
    dsimp only
    split_ifs <;> rfl


theorem fitVec_app0 (x y : ℚ) : fitVec x y 0 = x ^ 2 := rfl

theorem fitVec_app1 (x y : ℚ) : fitVec x y 1 = y ^ 2 := rfl

theorem fitVec_app2 (x y : ℚ) : fitVec x y 2 = x * y := rfl

theorem fitVec_app3 (x y : ℚ) : fitVec x y 3 = x := rfl

theorem fitVec_app4 (x y : ℚ) : fitVec x y 4 = y := rfl

theorem fitVec_app5 (x y : ℚ) : fitVec x y 5 = 1 := rfl

theorem lstsq_exact_sol {n : ℕ} (A : Matrix (Fin n) (Fin 6) ℚ)
    (R : Matrix (Fin n) (Fin 2) ℚ) (T : TMat) (hA : A * T = R) : IsLstsqSol A R T := by
  intro T'
  rw [hA, sub_self]
  calc frobSq (0 : Matrix (Fin n) (Fin 2) ℚ) = 0 := by
        unfold frobSq
        simp
    _ ≤ frobSq (A * T' - R) := frobSq_nonneg _

theorem const_center_mul (T : TMat) (i : Fin 10) (j : Fin 2) :
    (designMatrix (fun _ : Fin 10 => ((0 : ℚ), (0 : ℚ))) * T) i j = T 5 j := by
  rw [Matrix.mul_apply]
  simp only [designMatrix, Matrix.of_apply, designRow]
  rw [Fin.sum_univ_six]
  simp only [fitVec_app0, fitVec_app1, fitVec_app2, fitVec_app3, fitVec_app4, fitVec_app5]
  ring

theorem lstsq_const_helper (m : ℚ × ℚ) :
    least_square_mapping_spec (constSamples m) (rowMat m) 0 := by
  have hpix : (fun i => (constSamples m i).2) = (fun _ : Fin 10 => ((0 : ℚ), (0 : ℚ))) := rfl
  have hrow : ∀ j : Fin 2, rowMat m 5 j = ![m.1, m.2] j := by
    intro j
    simp [rowMat]
  have hAR : designMatrix (fun i => (constSamples m i).2) * rowMat m
      = realMat (constSamples m) := by
    ext i j
    rw [hpix, const_center_mul (rowMat m) i j, hrow j]
    simp [realMat, constSamples]
  constructor
  · constructor
    · exact lstsq_exact_sol _ _ _ hAR
    · intro T' hT'
      have h0 : frobSq (designMatrix (fun i => (constSamples m i).2) * T'
          - realMat (constSamples m)) = 0 := by
        have h1 := hT' (rowMat m)
        rw [hAR, sub_self] at h1
        have h2 : frobSq (0 : Matrix (Fin 10) (Fin 2) ℚ) = 0 := by
          unfold frobSq
          simp
        rw [h2] at h1
        exact le_antisymm h1 (frobSq_nonneg _)
      have hent := (frobSq_eq_zero_iff _).mp h0
      have hT5 : ∀ j : Fin 2, T' 5 j = ![m.1, m.2] j := by
        intro j
        have := hent 0 j
        rw [Matrix.sub_apply, hpix, const_center_mul T' 0 j] at this
        have hR : realMat (constSamples m) 0 j = ![m.1, m.2] j := by
          simp [realMat, constSamples]
        rw [hR] at this
        linarith
      -- frobSq (rowMat m) = m.1^2 + m.2^2 ≤ frobSq T'
      have hfr : frobSq (rowMat m) = (m.1) ^ 2 + (m.2) ^ 2 := by
        unfold frobSq
        rw [Fin.sum_univ_six]
        simp [rowMat, Fin.sum_univ_two]
      have hge : (m.1) ^ 2 + (m.2) ^ 2 ≤ frobSq T' := by
        unfold frobSq
        have hterm : (m.1) ^ 2 + (m.2) ^ 2 = ∑ j, (T' 5 j) ^ 2 := by
          rw [Fin.sum_univ_two, hT5 0, hT5 1]
          simp
        rw [hterm]
        exact Finset.single_le_sum (f := fun i => ∑ j, (T' i j) ^ 2)
          (fun i _ => by positivity) (Finset.mem_univ 5)
      rw [hfr]
      exact hge
  · rw [hAR, sub_self]
    unfold frobSq
    simp


/-- C7 (amended): on degenerate (all-coincident, hence collinear)
samples the solver does *not* fail: `np.linalg.lstsq` silently returns
the minimum-norm solution `rowMat m`, and `least_square_mapping` returns
it together with the residual its code computes.  (For rank-deficient
input numpy's residual array is empty and its mean is NaN; still no
exception is raised and the session continues.) -/
theorem solver_silent_on_degenerate (m : ℚ × ℚ) :
    least_square_mapping_spec (constSamples m) (rowMat m) 0 :=
  lstsq_const_helper m

/-- C7 counterexample: for ten identical (collinear) samples the
least-squares call succeeds — the relation `least_square_mapping_spec`
holds of an explicit matrix (with residual value 0 as computed by the
code) — no solver failure is reported and no session abort occurs. -/
theorem solver_failure_refuted :
    least_square_mapping_spec (constSamples (1, 0)) (rowMat (1, 0)) 0
    ∧ rowMat (1, 0) 5 0 = 1 :=
  ⟨lstsq_const_helper (1, 0), by simp [rowMat]⟩

/-- C3 (amended): the design matrix rows are `[x², y², xy, x, y, 1]`,
and for 10 noise-free samples generated from a known transform `T0`
*whose design matrix has full column rank* (the added hypothesis `hA`),
any least-squares result of `least_square_mapping` equals `T0` exactly
(hence within 1e-6) with residual 0.  Without the rank condition the
claim is false: see the counterexample. -/
theorem solver_roundtrip (pix : Fin 10 → ℚ × ℚ) (T0 : TMat)
    (hA : ∀ v : Fin 6 → ℚ, (∀ i, ∑ k, designMatrix pix i k * v k = 0) → v = 0)
    (T : TMat) (r : ℚ)
    (hT : least_square_mapping_spec (sampleOf T0 pix) T r) :
    (∀ p : ℚ × ℚ, designRow p = ![p.1 ^ 2, p.2 ^ 2, p.1 * p.2, p.1, p.2, 1])
    ∧ T = T0 ∧ r = 0 ∧ ∀ k j, |T k j - T0 k j| ≤ 1/1000000 := by
  have hpix : (fun i => (sampleOf T0 pix i).2) = pix := rfl
  have hR : designMatrix pix * T0 = realMat (sampleOf T0 pix) := by
    ext i j
    rw [Matrix.mul_apply]
    fin_cases j
    · show ∑ k, designMatrix pix i k * T0 k 0 = realMat (sampleOf T0 pix) i 0
      simp only [realMat, Matrix.of_apply, sampleOf, Matrix.cons_val_zero]
      unfold tApply designMatrix designRow
      simp only [Matrix.of_apply]
      exact Finset.sum_congr rfl fun k _ => mul_comm _ _
    · show ∑ k, designMatrix pix i k * T0 k 1 = realMat (sampleOf T0 pix) i 1
      simp only [realMat, Matrix.of_apply, sampleOf, Matrix.cons_val_one, Matrix.head_cons]
      unfold tApply designMatrix designRow
      simp only [Matrix.of_apply]
      exact Finset.sum_congr rfl fun k _ => mul_comm _ _
  have hres0 : frobSq (designMatrix pix * T - realMat (sampleOf T0 pix)) = 0 := by
    have h1 := hT.1.1 T0
    rw [hpix] at h1
    rw [hR, sub_self] at h1
    have h2 : frobSq (0 : Matrix (Fin 10) (Fin 2) ℚ) = 0 := by
      unfold frobSq
      simp
    rw [h2] at h1
    exact le_antisymm h1 (frobSq_nonneg _)
  have hent := (frobSq_eq_zero_iff _).mp hres0
  have hTT0 : T = T0 := by
    have hcol : ∀ j : Fin 2, (fun k => T k j - T0 k j) = 0 := by
      intro j
      apply hA
      intro i
      have h1 := hent i j
      rw [Matrix.sub_apply] at h1
      have h2 : (realMat (sampleOf T0 pix)) i j = (designMatrix pix * T0) i j := by
        rw [hR]
      rw [h2, Matrix.mul_apply, Matrix.mul_apply] at h1
      have h3 : ∑ k, designMatrix pix i k * (T k j - T0 k j)
          = ∑ k, designMatrix pix i k * T k j - ∑ k, designMatrix pix i k * T0 k j := by
        rw [← Finset.sum_sub_distrib]
        exact Finset.sum_congr rfl fun k _ => mul_sub _ _ _
      rw [h3, h1]
    ext k j
    have := congrFun (hcol j) k
    simp only [Pi.zero_apply] at this
    linarith
  refine ⟨fun p => rfl, hTT0, ?_, ?_⟩
  · have := hT.2
    rw [hpix] at this
    rw [this, hres0]
    norm_num
  · intro k j
    rw [hTT0]
    simp


theorem pix6_design_inj :
    ∀ v : Fin 6 → ℚ, (∀ i, ∑ k, designMatrix pix6 i k * v k = 0) → v = 0 := by
  intro v hv
  have e0 := hv 0
  have e1 := hv 1
  have e2 := hv 2
  have e3 := hv 3
  have e4 := hv 4
  have e5 := hv 5
  have p0 : pix6 0 = ((0 : ℚ), (0 : ℚ)) := rfl
  have p1 : pix6 1 = ((1 : ℚ), (0 : ℚ)) := rfl
  have p2 : pix6 2 = ((-1 : ℚ), (0 : ℚ)) := rfl
  have p3 : pix6 3 = ((0 : ℚ), (1 : ℚ)) := rfl
  have p4 : pix6 4 = ((0 : ℚ), (-1 : ℚ)) := rfl
  have p5 : pix6 5 = ((1 : ℚ), (1 : ℚ)) := rfl
  norm_num [designMatrix, designRow, Matrix.of_apply, Fin.sum_univ_six,
    p0, p1, p2, p3, p4, p5,
    fitVec_app0, fitVec_app1, fitVec_app2, fitVec_app3, fitVec_app4, fitVec_app5]
    at e0 e1 e2 e3 e4 e5
  funext k
  fin_cases k <;> simp <;> linarith


theorem tApply_TzM (v : Fin 6 → ℚ) (j : Fin 2) : tApply TzM v j = 0 := by
  unfold tApply TzM
  simp

/-- C3 counterexample: ten noise-free samples generated from the known
transform `T0ce` but all at the same pixel position: the minimum-norm
least-squares result is the zero matrix, which differs from `T0ce` by 1
in entry (0,0) — far more than 1e-6 — so recovery fails without a
full-rank condition. -/
theorem solver_roundtrip_counterexample :
    least_square_mapping_spec (sampleOf T0ce pixC) TzM 0
    ∧ ¬ |TzM 0 0 - T0ce 0 0| ≤ 1/1000000 := by
  have h1 : constSamples ((0 : ℚ), (0 : ℚ)) = sampleOf T0ce pixC := by
    funext i
    unfold constSamples sampleOf pixC
    have ht : ∀ j : Fin 2, tApply T0ce (fitVec 0 0) j = 0 := by
      intro j
      unfold tApply
      rw [Fin.sum_univ_six]
      simp only [fitVec_app0, fitVec_app1, fitVec_app2, fitVec_app3, fitVec_app4, fitVec_app5]
      norm_num [T0ce, Matrix.of_apply, Fin.ext_iff]
      intro h
      exact absurd h (by decide)
    rw [ht 0, ht 1]
  have h2 : rowMat ((0 : ℚ), (0 : ℚ)) = TzM := by
    ext k j
    unfold rowMat TzM
    simp only [Matrix.of_apply]
    split
    · fin_cases j <;> rfl
    · rfl
  have h3 := lstsq_const_helper ((0 : ℚ), (0 : ℚ))
  rw [h1, h2] at h3
  refine ⟨h3, ?_⟩
  have hz : TzM 0 0 = 0 := rfl
  have ho : T0ce 0 0 = 1 := by
    unfold T0ce
    simp
  rw [hz, ho]
  norm_num

theorem solver_roundtrip_witness :
    (∀ v : Fin 6 → ℚ, (∀ i, ∑ k, designMatrix pix6 i k * v k = 0) → v = 0)
    ∧ least_square_mapping_spec (sampleOf TzM pix6) TzM 0
    ∧ ((∀ p : ℚ × ℚ, designRow p = ![p.1 ^ 2, p.2 ^ 2, p.1 * p.2, p.1, p.2, 1])
        ∧ TzM = TzM ∧ (0 : ℚ) = 0 ∧ ∀ k j, |TzM k j - TzM k j| ≤ 1/1000000) := by
  have hR0 : realMat (sampleOf TzM pix6) = 0 := by
    ext i j
    unfold realMat sampleOf
    simp only [Matrix.of_apply]
    fin_cases j
    · simp [tApply_TzM]
    · simp [tApply_TzM]
  have hA0 : designMatrix (fun i => (sampleOf TzM pix6 i).2) * TzM = realMat (sampleOf TzM pix6) := by
    rw [hR0]
    ext i j
    rw [Matrix.mul_apply]
    unfold TzM
    simp
  have hspec : least_square_mapping_spec (sampleOf TzM pix6) TzM 0 := by
    refine ⟨⟨lstsq_exact_sol _ _ _ hA0, ?_⟩, ?_⟩
    · intro T' _
      have hz : frobSq TzM = 0 := by
        unfold frobSq TzM
        simp
      rw [hz]
      exact frobSq_nonneg _
    · rw [hA0, sub_self]
      unfold frobSq
      simp
  exact ⟨pix6_design_inj, hspec, solver_roundtrip pix6 TzM pix6_design_inj TzM 0 hspec⟩


theorem stateProcess_mpp (cfg : CalCfg) (s : CalibState) (d : Detection)
    (h : roundTo 4 s.mpp = s.mpp) :
    roundTo 4 (stateProcess cfg s d).1.mpp = (stateProcess cfg s d).1.mpp := by
  by_cases h0 : s.state = 0
  · rw [stateProcess_state0 cfg s d h0]
    exact h
  · by_cases h1 : s.state < 10
    · rw [stateProcess_sweep cfg s d h0 h1]
      dsimp only
      by_cases h2 : s.state = 1
      · simp only [h2, if_true, ite_true]
        exact roundTo_idem 4 _
      · simp only [h2, if_false, ite_false]
        exact h
    · by_cases h2 : s.state = 10
      · rw [stateProcess_state10 cfg s d h2]
        exact h
      · by_cases h3 : s.state = 200
        · rw [stateProcess_state200 cfg s d h3]
          dsimp only
          split
          · exact h
          · exact h
        · unfold stateProcess
          rw [if_neg h0, if_neg h1, if_neg h2, if_neg h3]
          exact h

theorem stateProcess_done_shape (cfg : CalCfg) (s : CalibState) (d : Detection)
    (r : ResultRecord) (h : (stateProcess cfg s d).2.2 = some r) :
    r.tool = cfg.tool ∧ r.cycle = cfg.rep ∧ r.mpp = s.mpp
    ∧ r.X = (finalOffset cfg.cp cfg.g10 d.tool).1
    ∧ r.Y = (finalOffset cfg.cp cfg.g10 d.tool).2 := by
  by_cases h0 : s.state = 0
  · rw [stateProcess_state0 cfg s d h0] at h
    simp at h
  · by_cases h1 : s.state < 10
    · rw [stateProcess_sweep cfg s d h0 h1] at h
      simp at h
    · by_cases h2 : s.state = 10
      · rw [stateProcess_state10 cfg s d h2] at h
        simp at h
      · by_cases h3 : s.state = 200
        · rw [stateProcess_state200 cfg s d h3] at h
          dsimp only at h
          by_cases h4 : (convergeOffsets s.transform cfg.w cfg.h d.xy).1 = 0
              ∧ (convergeOffsets s.transform cfg.w cfg.h d.xy).2 = 0
          · simp only [h4, and_self, if_true, ite_true, Option.some_inj] at h
            rw [← h]
            exact ⟨rfl, rfl, rfl, rfl, rfl⟩
          · simp only [h4, if_false, ite_false] at h
            simp at h
        · unfold stateProcess at h
          rw [if_neg h0, if_neg h1, if_neg h2, if_neg h3] at h
          simp at h

/-- C9: every result record emitted by a `calibrateTool` run (the dict
of keys `tool, cycle, mpp, X, Y`, modeled by `ResultRecord`) carries the
`tool`/`rep` integers and numeric values that are exact 3-decimal
(`X`, `Y`) and 4-decimal (`mpp`) quantities, so their decimal string
encodings round-trip at those precisions. -/
theorem result_record_fields (cfg : CalCfg) (dets : List Detection) (s : CalibState)
    (mvs : List GMove) (r : ResultRecord) (rest : List Detection)
    (hmpp : roundTo 4 s.mpp = s.mpp)
    (hrun : runCalib cfg s dets = (mvs, RunOut.done r rest)) :
    r.tool = cfg.tool ∧ r.cycle = cfg.rep
    ∧ roundTo 3 r.X = r.X ∧ roundTo 3 r.Y = r.Y ∧ roundTo 4 r.mpp = r.mpp := by
  have main : ∀ (n : ℕ) (dets : List Detection), dets.length ≤ n →
      ∀ (s : CalibState) (mvs : List GMove) (r : ResultRecord) (rest : List Detection),
      roundTo 4 s.mpp = s.mpp →
      runCalib cfg s dets = (mvs, RunOut.done r rest) →
      r.tool = cfg.tool ∧ r.cycle = cfg.rep
      ∧ roundTo 3 r.X = r.X ∧ roundTo 3 r.Y = r.Y ∧ roundTo 4 r.mpp = r.mpp := by
    intro n
    induction n with
    | zero =>
      intro dets hlen s mvs r rest hm hr
      have : dets = [] := List.length_eq_zero.mp (Nat.le_zero.mp hlen)
      subst this
      rw [runCalib] at hr
      simp at hr
    | succ n ih =>
      intro dets hlen s mvs r rest hm hr
      match dets with
      | [] =>
        rw [runCalib] at hr
        simp at hr
      | d :: ds =>
        rw [runCalib.eq_def] at hr
        dsimp only at hr
        by_cases h5 : (accumDet s d).detect_count < 5
        · rw [if_pos h5] at hr
          have hlen2 : ds.length ≤ n := by
            have : (d :: ds).length ≤ n + 1 := hlen
            simp [List.length_cons] at this
            omega
          exact ih ds hlen2 (accumDet s d) mvs r rest hm hr
        · rw [if_neg h5] at hr
          rcases ds with _ | ⟨d2, ds2⟩
          · simp at hr
          · dsimp only at hr
            have hm2 : roundTo 4 (averageRound (accumDet s d)).mpp
                = (averageRound (accumDet s d)).mpp := hm
            rcases hq : (stateProcess cfg (averageRound (accumDet s d)) d2).2.2 with _ | r3
            · rw [hq] at hr
              dsimp only at hr
              have hout : runCalib cfg (stateProcess cfg (averageRound (accumDet s d)) d2).1 ds2
                  = ((runCalib cfg (stateProcess cfg (averageRound (accumDet s d)) d2).1 ds2).1,
                     RunOut.done r rest) := by
                have h2 := congrArg Prod.snd hr
                dsimp only at h2
                exact Prod.ext rfl h2
              have hm3 : roundTo 4 (stateProcess cfg (averageRound (accumDet s d)) d2).1.mpp
                  = (stateProcess cfg (averageRound (accumDet s d)) d2).1.mpp :=
                stateProcess_mpp cfg (averageRound (accumDet s d)) d2 hm2
              have hlen2 : ds2.length ≤ n := by
                have : (d :: d2 :: ds2).length ≤ n + 1 := hlen
                simp [List.length_cons] at this
                omega
              exact ih ds2 hlen2 _ _ r rest hm3 hout
            · rw [hq] at hr
              dsimp only at hr
              have hr2 : r3 = r := by
                have h2 := congrArg Prod.snd hr
                dsimp only at h2
                injection h2 with h3 h4
              have hdone : (stateProcess cfg (averageRound (accumDet s d)) d2).2.2 = some r := by
                rw [hq, hr2]
              obtain ⟨ht, hc, hmr, hX, hY⟩ :=
                stateProcess_done_shape cfg (averageRound (accumDet s d)) d2 r hdone
              refine ⟨ht, hc, ?_, ?_, ?_⟩
              · rw [hX]
                unfold finalOffset
                exact roundTo_idem 3 _
              · rw [hY]
                unfold finalOffset
                exact roundTo_idem 3 _
              · rw [hmr]
                exact hm2
  exact main dets.length dets le_rfl s mvs r rest hmpp hrun


theorem runCalib_below (cfg : CalCfg) (s : CalibState) (d : Detection) (ds : List Detection)
    (h : (accumDet s d).detect_count < 5) :
    runCalib cfg s (d :: ds) = runCalib cfg (accumDet s d) ds := by
  rw [runCalib.eq_def]
  try dsimp only
  simp only [if_pos h]

theorem runCalib_snd_step (cfg : CalCfg) (s : CalibState) (d d2 : Detection)
    (ds2 : List Detection) (s3 : CalibState) (mv3 : List GMove)
    (h5 : ¬ (accumDet s d).detect_count < 5)
    (hsp : stateProcess cfg (averageRound (accumDet s d)) d2 = (s3, mv3, none)) :
    (runCalib cfg s (d :: d2 :: ds2)).2 = (runCalib cfg s3 ds2).2 := by
  rw [runCalib.eq_def]
  try dsimp only
  rw [if_neg h5]
  try dsimp only
  rw [show (stateProcess cfg (averageRound (accumDet s d)) d2).2.2 = none by rw [hsp]]
  try dsimp only
  rw [show (stateProcess cfg (averageRound (accumDet s d)) d2).1 = s3 by rw [hsp]]

set_option maxHeartbeats 2000000 in
/-- C4 counterexample: a complete camera-calibration run over the
26-detection stream collects **11** samples — one at the initial position
plus one after each of the 10 sweep moves — and the solver input
`transform_input` has length 11, not 10 as the claim states. -/
theorem sweep_collects_11_samples :
    ((starveState (runCalib cfgZ (initState none) (List.replicate 26 detZ)).2).map
      fun s => (s.transform_input.length, s.state)) = some (11, 200) := by
  rw [show List.replicate 26 detZ = [detZ, detZ, detZ, detZ, detZ, detZ, detZ, detZ, detZ, detZ, detZ, detZ, detZ, detZ, detZ, detZ, detZ, detZ, detZ, detZ, detZ, detZ, detZ, detZ, detZ, detZ] from rfl]
  have e0 : accumDet (initState none) detZ = ⟨0, (0, 0), 1, (0, 0), 0, 0, 0, [], [], [], TzM, 0⟩ := by
    norm_num [accumDet, averageRound, initState, detZ, roundTo, rhe, CalibState.mk.injEq, Prod.mk.injEq, TzM]
  have t0 : runCalib cfgZ (initState none) [detZ, detZ, detZ, detZ, detZ, detZ, detZ, detZ, detZ, detZ, detZ, detZ, detZ, detZ, detZ, detZ, detZ, detZ, detZ, detZ, detZ, detZ, detZ, detZ, detZ, detZ]
      = runCalib cfgZ ⟨0, (0, 0), 1, (0, 0), 0, 0, 0, [], [], [], TzM, 0⟩ [detZ, detZ, detZ, detZ, detZ, detZ, detZ, detZ, detZ, detZ, detZ, detZ, detZ, detZ, detZ, detZ, detZ, detZ, detZ, detZ, detZ, detZ, detZ, detZ, detZ] := by
    rw [runCalib_below cfgZ (initState none) detZ [detZ, detZ, detZ, detZ, detZ, detZ, detZ, detZ, detZ, detZ, detZ, detZ, detZ, detZ, detZ, detZ, detZ, detZ, detZ, detZ, detZ, detZ, detZ, detZ, detZ] (by rw [e0]; norm_num), e0]
  have e1 : accumDet ⟨0, (0, 0), 1, (0, 0), 0, 0, 0, [], [], [], TzM, 0⟩ detZ = ⟨0, (0, 0), 2, (0, 0), 0, 0, 0, [], [], [], TzM, 0⟩ := by
    norm_num [accumDet, averageRound, initState, detZ, roundTo, rhe, CalibState.mk.injEq, Prod.mk.injEq, TzM]
  have t1 : runCalib cfgZ ⟨0, (0, 0), 1, (0, 0), 0, 0, 0, [], [], [], TzM, 0⟩ [detZ, detZ, detZ, detZ, detZ, detZ, detZ, detZ, detZ, detZ, detZ, detZ, detZ, detZ, detZ, detZ, detZ, detZ, detZ, detZ, detZ, detZ, detZ, detZ, detZ]
      = runCalib cfgZ ⟨0, (0, 0), 2, (0, 0), 0, 0, 0, [], [], [], TzM, 0⟩ [detZ, detZ, detZ, detZ, detZ, detZ, detZ, detZ, detZ, detZ, detZ, detZ, detZ, detZ, detZ, detZ, detZ, detZ, detZ, detZ, detZ, detZ, detZ, detZ] := by
    rw [runCalib_below cfgZ ⟨0, (0, 0), 1, (0, 0), 0, 0, 0, [], [], [], TzM, 0⟩ detZ [detZ, detZ, detZ, detZ, detZ, detZ, detZ, detZ, detZ, detZ, detZ, detZ, detZ, detZ, detZ, detZ, detZ, detZ, detZ, detZ, detZ, detZ, detZ, detZ] (by rw [e1]; norm_num), e1]
  have e2 : accumDet ⟨0, (0, 0), 2, (0, 0), 0, 0, 0, [], [], [], TzM, 0⟩ detZ = ⟨0, (0, 0), 3, (0, 0), 0, 0, 0, [], [], [], TzM, 0⟩ := by
    norm_num [accumDet, averageRound, initState, detZ, roundTo, rhe, CalibState.mk.injEq, Prod.mk.injEq, TzM]
  have t2 : runCalib cfgZ ⟨0, (0, 0), 2, (0, 0), 0, 0, 0, [], [], [], TzM, 0⟩ [detZ, detZ, detZ, detZ, detZ, detZ, detZ, detZ, detZ, detZ, detZ, detZ, detZ, detZ, detZ, detZ, detZ, detZ, detZ, detZ, detZ, detZ, detZ, detZ]
      = runCalib cfgZ ⟨0, (0, 0), 3, (0, 0), 0, 0, 0, [], [], [], TzM, 0⟩ [detZ, detZ, detZ, detZ, detZ, detZ, detZ, detZ, detZ, detZ, detZ, detZ, detZ, detZ, detZ, detZ, detZ, detZ, detZ, detZ, detZ, detZ, detZ] := by
    rw [runCalib_below cfgZ ⟨0, (0, 0), 2, (0, 0), 0, 0, 0, [], [], [], TzM, 0⟩ detZ [detZ, detZ, detZ, detZ, detZ, detZ, detZ, detZ, detZ, detZ, detZ, detZ, detZ, detZ, detZ, detZ, detZ, detZ, detZ, detZ, detZ, detZ, detZ] (by rw [e2]; norm_num), e2]
  have e3 : accumDet ⟨0, (0, 0), 3, (0, 0), 0, 0, 0, [], [], [], TzM, 0⟩ detZ = ⟨0, (0, 0), 4, (0, 0), 0, 0, 0, [], [], [], TzM, 0⟩ := by
    norm_num [accumDet, averageRound, initState, detZ, roundTo, rhe, CalibState.mk.injEq, Prod.mk.injEq, TzM]
  have t3 : runCalib cfgZ ⟨0, (0, 0), 3, (0, 0), 0, 0, 0, [], [], [], TzM, 0⟩ [detZ, detZ, detZ, detZ, detZ, detZ, detZ, detZ, detZ, detZ, detZ, detZ, detZ, detZ, detZ, detZ, detZ, detZ, detZ, detZ, detZ, detZ, detZ]
      = runCalib cfgZ ⟨0, (0, 0), 4, (0, 0), 0, 0, 0, [], [], [], TzM, 0⟩ [detZ, detZ, detZ, detZ, detZ, detZ, detZ, detZ, detZ, detZ, detZ, detZ, detZ, detZ, detZ, detZ, detZ, detZ, detZ, detZ, detZ, detZ] := by
    rw [runCalib_below cfgZ ⟨0, (0, 0), 3, (0, 0), 0, 0, 0, [], [], [], TzM, 0⟩ detZ [detZ, detZ, detZ, detZ, detZ, detZ, detZ, detZ, detZ, detZ, detZ, detZ, detZ, detZ, detZ, detZ, detZ, detZ, detZ, detZ, detZ, detZ] (by rw [e3]; norm_num), e3]
  have a0 : averageRound (accumDet ⟨0, (0, 0), 4, (0, 0), 0, 0, 0, [], [], [], TzM, 0⟩ detZ) = ⟨0, (0, 0), 5, (0, 0), 0, 0, 0, [], [], [], TzM, 0⟩ := by
    norm_num [accumDet, averageRound, initState, detZ, roundTo, rhe, CalibState.mk.injEq, Prod.mk.injEq, TzM]
  have p0 : stateProcess cfgZ ⟨0, (0, 0), 5, (0, 0), 0, 0, 0, [], [], [], TzM, 0⟩ detZ = (⟨1, (0, 0), 5, (0, 0), 0, (-(1/2) : ℚ), 0, [(0, 0)], [(0, 0)], [], TzM, 0⟩, [GMove.rel 0 (-(1/2) : ℚ)], none) := by
    rw [stateProcess_state0 cfgZ ⟨0, (0, 0), 5, (0, 0), 0, 0, 0, [], [], [], TzM, 0⟩ detZ rfl]
    norm_num [detZ, cfgZ, TzM, calibrationCoordinates, CalibState.mk.injEq,
      Prod.mk.injEq, List.getD, getDistance, sqrtRound3, sqrtScaled, roundTo,
      rhe, normalize_coords, tApply, fitVec_app0, fitVec_app1, fitVec_app2,
      fitVec_app3, fitVec_app4, fitVec_app5, Fin.sum_univ_six, Matrix.of_apply]
  have s0eq : stateProcess cfgZ (averageRound (accumDet ⟨0, (0, 0), 4, (0, 0), 0, 0, 0, [], [], [], TzM, 0⟩ detZ)) detZ
      = (⟨1, (0, 0), 5, (0, 0), 0, (-(1/2) : ℚ), 0, [(0, 0)], [(0, 0)], [], TzM, 0⟩, [GMove.rel 0 (-(1/2) : ℚ)], none) := by
    rw [a0, p0]
  have qq0 : (runCalib cfgZ ⟨0, (0, 0), 4, (0, 0), 0, 0, 0, [], [], [], TzM, 0⟩ [detZ, detZ, detZ, detZ, detZ, detZ, detZ, detZ, detZ, detZ, detZ, detZ, detZ, detZ, detZ, detZ, detZ, detZ, detZ, detZ, detZ, detZ]).2
      = (runCalib cfgZ ⟨1, (0, 0), 5, (0, 0), 0, (-(1/2) : ℚ), 0, [(0, 0)], [(0, 0)], [], TzM, 0⟩ [detZ, detZ, detZ, detZ, detZ, detZ, detZ, detZ, detZ, detZ, detZ, detZ, detZ, detZ, detZ, detZ, detZ, detZ, detZ, detZ]).2 :=
    runCalib_snd_step cfgZ ⟨0, (0, 0), 4, (0, 0), 0, 0, 0, [], [], [], TzM, 0⟩ detZ detZ [detZ, detZ, detZ, detZ, detZ, detZ, detZ, detZ, detZ, detZ, detZ, detZ, detZ, detZ, detZ, detZ, detZ, detZ, detZ, detZ] _ _ (by norm_num [accumDet]) s0eq
  have a1 : averageRound (accumDet ⟨1, (0, 0), 5, (0, 0), 0, (-(1/2) : ℚ), 0, [(0, 0)], [(0, 0)], [], TzM, 0⟩ detZ) = ⟨1, (0, 0), 6, (0, 0), 0, (-(1/2) : ℚ), 0, [(0, 0)], [(0, 0)], [], TzM, 0⟩ := by
    norm_num [accumDet, averageRound, initState, detZ, roundTo, rhe, CalibState.mk.injEq, Prod.mk.injEq, TzM]
  have p1 : stateProcess cfgZ ⟨1, (0, 0), 6, (0, 0), 0, (-(1/2) : ℚ), 0, [(0, 0)], [(0, 0)], [], TzM, 0⟩ detZ = (⟨2, (0, 0), 6, (0, 0), (147/500 : ℚ), (-(81/200) : ℚ), 0, [(0, 0), (0, 0)], [(0, 0), (0, 0)], [], TzM, 0⟩, [GMove.rel 0 (1/2 : ℚ), GMove.rel (147/500 : ℚ) (-(81/200) : ℚ)], none) := by
    rw [stateProcess_sweep cfgZ ⟨1, (0, 0), 6, (0, 0), 0, (-(1/2) : ℚ), 0, [(0, 0)], [(0, 0)], [], TzM, 0⟩ detZ (by norm_num) (by norm_num)]
    norm_num [detZ, cfgZ, TzM, calibrationCoordinates, CalibState.mk.injEq,
      Prod.mk.injEq, List.getD, getDistance, sqrtRound3, sqrtScaled, roundTo,
      rhe, normalize_coords, tApply, fitVec_app0, fitVec_app1, fitVec_app2,
      fitVec_app3, fitVec_app4, fitVec_app5, Fin.sum_univ_six, Matrix.of_apply]
  have s1eq : stateProcess cfgZ (averageRound (accumDet ⟨1, (0, 0), 5, (0, 0), 0, (-(1/2) : ℚ), 0, [(0, 0)], [(0, 0)], [], TzM, 0⟩ detZ)) detZ
      = (⟨2, (0, 0), 6, (0, 0), (147/500 : ℚ), (-(81/200) : ℚ), 0, [(0, 0), (0, 0)], [(0, 0), (0, 0)], [], TzM, 0⟩, [GMove.rel 0 (1/2 : ℚ), GMove.rel (147/500 : ℚ) (-(81/200) : ℚ)], none) := by
    rw [a1, p1]
  have qq1 : (runCalib cfgZ ⟨1, (0, 0), 5, (0, 0), 0, (-(1/2) : ℚ), 0, [(0, 0)], [(0, 0)], [], TzM, 0⟩ [detZ, detZ, detZ, detZ, detZ, detZ, detZ, detZ, detZ, detZ, detZ, detZ, detZ, detZ, detZ, detZ, detZ, detZ, detZ, detZ]).2
      = (runCalib cfgZ ⟨2, (0, 0), 6, (0, 0), (147/500 : ℚ), (-(81/200) : ℚ), 0, [(0, 0), (0, 0)], [(0, 0), (0, 0)], [], TzM, 0⟩ [detZ, detZ, detZ, detZ, detZ, detZ, detZ, detZ, detZ, detZ, detZ, detZ, detZ, detZ, detZ, detZ, detZ, detZ]).2 :=
    runCalib_snd_step cfgZ ⟨1, (0, 0), 5, (0, 0), 0, (-(1/2) : ℚ), 0, [(0, 0)], [(0, 0)], [], TzM, 0⟩ detZ detZ [detZ, detZ, detZ, detZ, detZ, detZ, detZ, detZ, detZ, detZ, detZ, detZ, detZ, detZ, detZ, detZ, detZ, detZ] _ _ (by norm_num [accumDet]) s1eq
  have a2 : averageRound (accumDet ⟨2, (0, 0), 6, (0, 0), (147/500 : ℚ), (-(81/200) : ℚ), 0, [(0, 0), (0, 0)], [(0, 0), (0, 0)], [], TzM, 0⟩ detZ) = ⟨2, (0, 0), 7, (0, 0), (147/500 : ℚ), (-(81/200) : ℚ), 0, [(0, 0), (0, 0)], [(0, 0), (0, 0)], [], TzM, 0⟩ := by
    norm_num [accumDet, averageRound, initState, detZ, roundTo, rhe, CalibState.mk.injEq, Prod.mk.injEq, TzM]
  have p2 : stateProcess cfgZ ⟨2, (0, 0), 7, (0, 0), (147/500 : ℚ), (-(81/200) : ℚ), 0, [(0, 0), (0, 0)], [(0, 0), (0, 0)], [], TzM, 0⟩ detZ = (⟨3, (0, 0), 7, (0, 0), (119/250 : ℚ), (-(31/200) : ℚ), 0, [(0, 0), (0, 0), (0, 0)], [(0, 0), (0, 0), (0, 0)], [], TzM, 0⟩, [GMove.rel (-(147/500) : ℚ) (81/200 : ℚ), GMove.rel (119/250 : ℚ) (-(31/200) : ℚ)], none) := by
    rw [stateProcess_sweep cfgZ ⟨2, (0, 0), 7, (0, 0), (147/500 : ℚ), (-(81/200) : ℚ), 0, [(0, 0), (0, 0)], [(0, 0), (0, 0)], [], TzM, 0⟩ detZ (by norm_num) (by norm_num)]
    norm_num [detZ, cfgZ, TzM, calibrationCoordinates, CalibState.mk.injEq,
      Prod.mk.injEq, List.getD, getDistance, sqrtRound3, sqrtScaled, roundTo,
      rhe, normalize_coords, tApply, fitVec_app0, fitVec_app1, fitVec_app2,
      fitVec_app3, fitVec_app4, fitVec_app5, Fin.sum_univ_six, Matrix.of_apply]
  have s2eq : stateProcess cfgZ (averageRound (accumDet ⟨2, (0, 0), 6, (0, 0), (147/500 : ℚ), (-(81/200) : ℚ), 0, [(0, 0), (0, 0)], [(0, 0), (0, 0)], [], TzM, 0⟩ detZ)) detZ
      = (⟨3, (0, 0), 7, (0, 0), (119/250 : ℚ), (-(31/200) : ℚ), 0, [(0, 0), (0, 0), (0, 0)], [(0, 0), (0, 0), (0, 0)], [], TzM, 0⟩, [GMove.rel (-(147/500) : ℚ) (81/200 : ℚ), GMove.rel (119/250 : ℚ) (-(31/200) : ℚ)], none) := by
    rw [a2, p2]
  have qq2 : (runCalib cfgZ ⟨2, (0, 0), 6, (0, 0), (147/500 : ℚ), (-(81/200) : ℚ), 0, [(0, 0), (0, 0)], [(0, 0), (0, 0)], [], TzM, 0⟩ [detZ, detZ, detZ, detZ, detZ, detZ, detZ, detZ, detZ, detZ, detZ, detZ, detZ, detZ, detZ, detZ, detZ, detZ]).2
      = (runCalib cfgZ ⟨3, (0, 0), 7, (0, 0), (119/250 : ℚ), (-(31/200) : ℚ), 0, [(0, 0), (0, 0), (0, 0)], [(0, 0), (0, 0), (0, 0)], [], TzM, 0⟩ [detZ, detZ, detZ, detZ, detZ, detZ, detZ, detZ, detZ, detZ, detZ, detZ, detZ, detZ, detZ, detZ]).2 :=
    runCalib_snd_step cfgZ ⟨2, (0, 0), 6, (0, 0), (147/500 : ℚ), (-(81/200) : ℚ), 0, [(0, 0), (0, 0)], [(0, 0), (0, 0)], [], TzM, 0⟩ detZ detZ [detZ, detZ, detZ, detZ, detZ, detZ, detZ, detZ, detZ, detZ, detZ, detZ, detZ, detZ, detZ, detZ] _ _ (by norm_num [accumDet]) s2eq
  have a3 : averageRound (accumDet ⟨3, (0, 0), 7, (0, 0), (119/250 : ℚ), (-(31/200) : ℚ), 0, [(0, 0), (0, 0), (0, 0)], [(0, 0), (0, 0), (0, 0)], [], TzM, 0⟩ detZ) = ⟨3, (0, 0), 8, (0, 0), (119/250 : ℚ), (-(31/200) : ℚ), 0, [(0, 0), (0, 0), (0, 0)], [(0, 0), (0, 0), (0, 0)], [], TzM, 0⟩ := by
    norm_num [accumDet, averageRound, initState, detZ, roundTo, rhe, CalibState.mk.injEq, Prod.mk.injEq, TzM]
  have p3 : stateProcess cfgZ ⟨3, (0, 0), 8, (0, 0), (119/250 : ℚ), (-(31/200) : ℚ), 0, [(0, 0), (0, 0), (0, 0)], [(0, 0), (0, 0), (0, 0)], [], TzM, 0⟩ detZ = (⟨4, (0, 0), 8, (0, 0), (119/250 : ℚ), (31/200 : ℚ), 0, [(0, 0), (0, 0), (0, 0), (0, 0)], [(0, 0), (0, 0), (0, 0), (0, 0)], [], TzM, 0⟩, [GMove.rel (-(119/250) : ℚ) (31/200 : ℚ), GMove.rel (119/250 : ℚ) (31/200 : ℚ)], none) := by
    rw [stateProcess_sweep cfgZ ⟨3, (0, 0), 8, (0, 0), (119/250 : ℚ), (-(31/200) : ℚ), 0, [(0, 0), (0, 0), (0, 0)], [(0, 0), (0, 0), (0, 0)], [], TzM, 0⟩ detZ (by norm_num) (by norm_num)]
    norm_num [detZ, cfgZ, TzM, calibrationCoordinates, CalibState.mk.injEq,
      Prod.mk.injEq, List.getD, getDistance, sqrtRound3, sqrtScaled, roundTo,
      rhe, normalize_coords, tApply, fitVec_app0, fitVec_app1, fitVec_app2,
      fitVec_app3, fitVec_app4, fitVec_app5, Fin.sum_univ_six, Matrix.of_apply]
  have s3eq : stateProcess cfgZ (averageRound (accumDet ⟨3, (0, 0), 7, (0, 0), (119/250 : ℚ), (-(31/200) : ℚ), 0, [(0, 0), (0, 0), (0, 0)], [(0, 0), (0, 0), (0, 0)], [], TzM, 0⟩ detZ)) detZ
      = (⟨4, (0, 0), 8, (0, 0), (119/250 : ℚ), (31/200 : ℚ), 0, [(0, 0), (0, 0), (0, 0), (0, 0)], [(0, 0), (0, 0), (0, 0), (0, 0)], [], TzM, 0⟩, [GMove.rel (-(119/250) : ℚ) (31/200 : ℚ), GMove.rel (119/250 : ℚ) (31/200 : ℚ)], none) := by
    rw [a3, p3]
  have qq3 : (runCalib cfgZ ⟨3, (0, 0), 7, (0, 0), (119/250 : ℚ), (-(31/200) : ℚ), 0, [(0, 0), (0, 0), (0, 0)], [(0, 0), (0, 0), (0, 0)], [], TzM, 0⟩ [detZ, detZ, detZ, detZ, detZ, detZ, detZ, detZ, detZ, detZ, detZ, detZ, detZ, detZ, detZ, detZ]).2
      = (runCalib cfgZ ⟨4, (0, 0), 8, (0, 0), (119/250 : ℚ), (31/200 : ℚ), 0, [(0, 0), (0, 0), (0, 0), (0, 0)], [(0, 0), (0, 0), (0, 0), (0, 0)], [], TzM, 0⟩ [detZ, detZ, detZ, detZ, detZ, detZ, detZ, detZ, detZ, detZ, detZ, detZ, detZ, detZ]).2 :=
    runCalib_snd_step cfgZ ⟨3, (0, 0), 7, (0, 0), (119/250 : ℚ), (-(31/200) : ℚ), 0, [(0, 0), (0, 0), (0, 0)], [(0, 0), (0, 0), (0, 0)], [], TzM, 0⟩ detZ detZ [detZ, detZ, detZ, detZ, detZ, detZ, detZ, detZ, detZ, detZ, detZ, detZ, detZ, detZ] _ _ (by norm_num [accumDet]) s3eq
  have a4 : averageRound (accumDet ⟨4, (0, 0), 8, (0, 0), (119/250 : ℚ), (31/200 : ℚ), 0, [(0, 0), (0, 0), (0, 0), (0, 0)], [(0, 0), (0, 0), (0, 0), (0, 0)], [], TzM, 0⟩ detZ) = ⟨4, (0, 0), 9, (0, 0), (119/250 : ℚ), (31/200 : ℚ), 0, [(0, 0), (0, 0), (0, 0), (0, 0)], [(0, 0), (0, 0), (0, 0), (0, 0)], [], TzM, 0⟩ := by
    norm_num [accumDet, averageRound, initState, detZ, roundTo, rhe, CalibState.mk.injEq, Prod.mk.injEq, TzM]
  have p4 : stateProcess cfgZ ⟨4, (0, 0), 9, (0, 0), (119/250 : ℚ), (31/200 : ℚ), 0, [(0, 0), (0, 0), (0, 0), (0, 0)], [(0, 0), (0, 0), (0, 0), (0, 0)], [], TzM, 0⟩ detZ = (⟨5, (0, 0), 9, (0, 0), (147/500 : ℚ), (81/200 : ℚ), 0, [(0, 0), (0, 0), (0, 0), (0, 0), (0, 0)], [(0, 0), (0, 0), (0, 0), (0, 0), (0, 0)], [], TzM, 0⟩, [GMove.rel (-(119/250) : ℚ) (-(31/200) : ℚ), GMove.rel (147/500 : ℚ) (81/200 : ℚ)], none) := by
    rw [stateProcess_sweep cfgZ ⟨4, (0, 0), 9, (0, 0), (119/250 : ℚ), (31/200 : ℚ), 0, [(0, 0), (0, 0), (0, 0), (0, 0)], [(0, 0), (0, 0), (0, 0), (0, 0)], [], TzM, 0⟩ detZ (by norm_num) (by norm_num)]
    norm_num [detZ, cfgZ, TzM, calibrationCoordinates, CalibState.mk.injEq,
      Prod.mk.injEq, List.getD, getDistance, sqrtRound3, sqrtScaled, roundTo,
      rhe, normalize_coords, tApply, fitVec_app0, fitVec_app1, fitVec_app2,
      fitVec_app3, fitVec_app4, fitVec_app5, Fin.sum_univ_six, Matrix.of_apply]
  have s4eq : stateProcess cfgZ (averageRound (accumDet ⟨4, (0, 0), 8, (0, 0), (119/250 : ℚ), (31/200 : ℚ), 0, [(0, 0), (0, 0), (0, 0), (0, 0)], [(0, 0), (0, 0), (0, 0), (0, 0)], [], TzM, 0⟩ detZ)) detZ
      = (⟨5, (0, 0), 9, (0, 0), (147/500 : ℚ), (81/200 : ℚ), 0, [(0, 0), (0, 0), (0, 0), (0, 0), (0, 0)], [(0, 0), (0, 0), (0, 0), (0, 0), (0, 0)], [], TzM, 0⟩, [GMove.rel (-(119/250) : ℚ) (-(31/200) : ℚ), GMove.rel (147/500 : ℚ) (81/200 : ℚ)], none) := by
    rw [a4, p4]
  have qq4 : (runCalib cfgZ ⟨4, (0, 0), 8, (0, 0), (119/250 : ℚ), (31/200 : ℚ), 0, [(0, 0), (0, 0), (0, 0), (0, 0)], [(0, 0), (0, 0), (0, 0), (0, 0)], [], TzM, 0⟩ [detZ, detZ, detZ, detZ, detZ, detZ, detZ, detZ, detZ, detZ, detZ, detZ, detZ, detZ]).2
      = (runCalib cfgZ ⟨5, (0, 0), 9, (0, 0), (147/500 : ℚ), (81/200 : ℚ), 0, [(0, 0), (0, 0), (0, 0), (0, 0), (0, 0)], [(0, 0), (0, 0), (0, 0), (0, 0), (0, 0)], [], TzM, 0⟩ [detZ, detZ, detZ, detZ, detZ, detZ, detZ, detZ, detZ, detZ, detZ, detZ]).2 :=
    runCalib_snd_step cfgZ ⟨4, (0, 0), 8, (0, 0), (119/250 : ℚ), (31/200 : ℚ), 0, [(0, 0), (0, 0), (0, 0), (0, 0)], [(0, 0), (0, 0), (0, 0), (0, 0)], [], TzM, 0⟩ detZ detZ [detZ, detZ, detZ, detZ, detZ, detZ, detZ, detZ, detZ, detZ, detZ, detZ] _ _ (by norm_num [accumDet]) s4eq
  have a5 : averageRound (accumDet ⟨5, (0, 0), 9, (0, 0), (147/500 : ℚ), (81/200 : ℚ), 0, [(0, 0), (0, 0), (0, 0), (0, 0), (0, 0)], [(0, 0), (0, 0), (0, 0), (0, 0), (0, 0)], [], TzM, 0⟩ detZ) = ⟨5, (0, 0), 10, (0, 0), (147/500 : ℚ), (81/200 : ℚ), 0, [(0, 0), (0, 0), (0, 0), (0, 0), (0, 0)], [(0, 0), (0, 0), (0, 0), (0, 0), (0, 0)], [], TzM, 0⟩ := by
    norm_num [accumDet, averageRound, initState, detZ, roundTo, rhe, CalibState.mk.injEq, Prod.mk.injEq, TzM]
  have p5 : stateProcess cfgZ ⟨5, (0, 0), 10, (0, 0), (147/500 : ℚ), (81/200 : ℚ), 0, [(0, 0), (0, 0), (0, 0), (0, 0), (0, 0)], [(0, 0), (0, 0), (0, 0), (0, 0), (0, 0)], [], TzM, 0⟩ detZ = (⟨6, (0, 0), 10, (0, 0), 0, (1/2 : ℚ), 0, [(0, 0), (0, 0), (0, 0), (0, 0), (0, 0), (0, 0)], [(0, 0), (0, 0), (0, 0), (0, 0), (0, 0), (0, 0)], [], TzM, 0⟩, [GMove.rel (-(147/500) : ℚ) (-(81/200) : ℚ), GMove.rel 0 (1/2 : ℚ)], none) := by
    rw [stateProcess_sweep cfgZ ⟨5, (0, 0), 10, (0, 0), (147/500 : ℚ), (81/200 : ℚ), 0, [(0, 0), (0, 0), (0, 0), (0, 0), (0, 0)], [(0, 0), (0, 0), (0, 0), (0, 0), (0, 0)], [], TzM, 0⟩ detZ (by norm_num) (by norm_num)]
    norm_num [detZ, cfgZ, TzM, calibrationCoordinates, CalibState.mk.injEq,
      Prod.mk.injEq, List.getD, getDistance, sqrtRound3, sqrtScaled, roundTo,
      rhe, normalize_coords, tApply, fitVec_app0, fitVec_app1, fitVec_app2,
      fitVec_app3, fitVec_app4, fitVec_app5, Fin.sum_univ_six, Matrix.of_apply]
  have s5eq : stateProcess cfgZ (averageRound (accumDet ⟨5, (0, 0), 9, (0, 0), (147/500 : ℚ), (81/200 : ℚ), 0, [(0, 0), (0, 0), (0, 0), (0, 0), (0, 0)], [(0, 0), (0, 0), (0, 0), (0, 0), (0, 0)], [], TzM, 0⟩ detZ)) detZ
      = (⟨6, (0, 0), 10, (0, 0), 0, (1/2 : ℚ), 0, [(0, 0), (0, 0), (0, 0), (0, 0), (0, 0), (0, 0)], [(0, 0), (0, 0), (0, 0), (0, 0), (0, 0), (0, 0)], [], TzM, 0⟩, [GMove.rel (-(147/500) : ℚ) (-(81/200) : ℚ), GMove.rel 0 (1/2 : ℚ)], none) := by
    rw [a5, p5]
  have qq5 : (runCalib cfgZ ⟨5, (0, 0), 9, (0, 0), (147/500 : ℚ), (81/200 : ℚ), 0, [(0, 0), (0, 0), (0, 0), (0, 0), (0, 0)], [(0, 0), (0, 0), (0, 0), (0, 0), (0, 0)], [], TzM, 0⟩ [detZ, detZ, detZ, detZ, detZ, detZ, detZ, detZ, detZ, detZ, detZ, detZ]).2
      = (runCalib cfgZ ⟨6, (0, 0), 10, (0, 0), 0, (1/2 : ℚ), 0, [(0, 0), (0, 0), (0, 0), (0, 0), (0, 0), (0, 0)], [(0, 0), (0, 0), (0, 0), (0, 0), (0, 0), (0, 0)], [], TzM, 0⟩ [detZ, detZ, detZ, detZ, detZ, detZ, detZ, detZ, detZ, detZ]).2 :=
    runCalib_snd_step cfgZ ⟨5, (0, 0), 9, (0, 0), (147/500 : ℚ), (81/200 : ℚ), 0, [(0, 0), (0, 0), (0, 0), (0, 0), (0, 0)], [(0, 0), (0, 0), (0, 0), (0, 0), (0, 0)], [], TzM, 0⟩ detZ detZ [detZ, detZ, detZ, detZ, detZ, detZ, detZ, detZ, detZ, detZ] _ _ (by norm_num [accumDet]) s5eq
  have a6 : averageRound (accumDet ⟨6, (0, 0), 10, (0, 0), 0, (1/2 : ℚ), 0, [(0, 0), (0, 0), (0, 0), (0, 0), (0, 0), (0, 0)], [(0, 0), (0, 0), (0, 0), (0, 0), (0, 0), (0, 0)], [], TzM, 0⟩ detZ) = ⟨6, (0, 0), 11, (0, 0), 0, (1/2 : ℚ), 0, [(0, 0), (0, 0), (0, 0), (0, 0), (0, 0), (0, 0)], [(0, 0), (0, 0), (0, 0), (0, 0), (0, 0), (0, 0)], [], TzM, 0⟩ := by
    norm_num [accumDet, averageRound, initState, detZ, roundTo, rhe, CalibState.mk.injEq, Prod.mk.injEq, TzM]
  have p6 : stateProcess cfgZ ⟨6, (0, 0), 11, (0, 0), 0, (1/2 : ℚ), 0, [(0, 0), (0, 0), (0, 0), (0, 0), (0, 0), (0, 0)], [(0, 0), (0, 0), (0, 0), (0, 0), (0, 0), (0, 0)], [], TzM, 0⟩ detZ = (⟨7, (0, 0), 11, (0, 0), (-(147/500) : ℚ), (81/200 : ℚ), 0, [(0, 0), (0, 0), (0, 0), (0, 0), (0, 0), (0, 0), (0, 0)], [(0, 0), (0, 0), (0, 0), (0, 0), (0, 0), (0, 0), (0, 0)], [], TzM, 0⟩, [GMove.rel 0 (-(1/2) : ℚ), GMove.rel (-(147/500) : ℚ) (81/200 : ℚ)], none) := by
    rw [stateProcess_sweep cfgZ ⟨6, (0, 0), 11, (0, 0), 0, (1/2 : ℚ), 0, [(0, 0), (0, 0), (0, 0), (0, 0), (0, 0), (0, 0)], [(0, 0), (0, 0), (0, 0), (0, 0), (0, 0), (0, 0)], [], TzM, 0⟩ detZ (by norm_num) (by norm_num)]
    norm_num [detZ, cfgZ, TzM, calibrationCoordinates, CalibState.mk.injEq,
      Prod.mk.injEq, List.getD, getDistance, sqrtRound3, sqrtScaled, roundTo,
      rhe, normalize_coords, tApply, fitVec_app0, fitVec_app1, fitVec_app2,
      fitVec_app3, fitVec_app4, fitVec_app5, Fin.sum_univ_six, Matrix.of_apply]
  have s6eq : stateProcess cfgZ (averageRound (accumDet ⟨6, (0, 0), 10, (0, 0), 0, (1/2 : ℚ), 0, [(0, 0), (0, 0), (0, 0), (0, 0), (0, 0), (0, 0)], [(0, 0), (0, 0), (0, 0), (0, 0), (0, 0), (0, 0)], [], TzM, 0⟩ detZ)) detZ
      = (⟨7, (0, 0), 11, (0, 0), (-(147/500) : ℚ), (81/200 : ℚ), 0, [(0, 0), (0, 0), (0, 0), (0, 0), (0, 0), (0, 0), (0, 0)], [(0, 0), (0, 0), (0, 0), (0, 0), (0, 0), (0, 0), (0, 0)], [], TzM, 0⟩, [GMove.rel 0 (-(1/2) : ℚ), GMove.rel (-(147/500) : ℚ) (81/200 : ℚ)], none) := by
    rw [a6, p6]
  have qq6 : (runCalib cfgZ ⟨6, (0, 0), 10, (0, 0), 0, (1/2 : ℚ), 0, [(0, 0), (0, 0), (0, 0), (0, 0), (0, 0), (0, 0)], [(0, 0), (0, 0), (0, 0), (0, 0), (0, 0), (0, 0)], [], TzM, 0⟩ [detZ, detZ, detZ, detZ, detZ, detZ, detZ, detZ, detZ, detZ]).2
      = (runCalib cfgZ ⟨7, (0, 0), 11, (0, 0), (-(147/500) : ℚ), (81/200 : ℚ), 0, [(0, 0), (0, 0), (0, 0), (0, 0), (0, 0), (0, 0), (0, 0)], [(0, 0), (0, 0), (0, 0), (0, 0), (0, 0), (0, 0), (0, 0)], [], TzM, 0⟩ [detZ, detZ, detZ, detZ, detZ, detZ, detZ, detZ]).2 :=
    runCalib_snd_step cfgZ ⟨6, (0, 0), 10, (0, 0), 0, (1/2 : ℚ), 0, [(0, 0), (0, 0), (0, 0), (0, 0), (0, 0), (0, 0)], [(0, 0), (0, 0), (0, 0), (0, 0), (0, 0), (0, 0)], [], TzM, 0⟩ detZ detZ [detZ, detZ, detZ, detZ, detZ, detZ, detZ, detZ] _ _ (by norm_num [accumDet]) s6eq
  have a7 : averageRound (accumDet ⟨7, (0, 0), 11, (0, 0), (-(147/500) : ℚ), (81/200 : ℚ), 0, [(0, 0), (0, 0), (0, 0), (0, 0), (0, 0), (0, 0), (0, 0)], [(0, 0), (0, 0), (0, 0), (0, 0), (0, 0), (0, 0), (0, 0)], [], TzM, 0⟩ detZ) = ⟨7, (0, 0), 12, (0, 0), (-(147/500) : ℚ), (81/200 : ℚ), 0, [(0, 0), (0, 0), (0, 0), (0, 0), (0, 0), (0, 0), (0, 0)], [(0, 0), (0, 0), (0, 0), (0, 0), (0, 0), (0, 0), (0, 0)], [], TzM, 0⟩ := by
    norm_num [accumDet, averageRound, initState, detZ, roundTo, rhe, CalibState.mk.injEq, Prod.mk.injEq, TzM]
  have p7 : stateProcess cfgZ ⟨7, (0, 0), 12, (0, 0), (-(147/500) : ℚ), (81/200 : ℚ), 0, [(0, 0), (0, 0), (0, 0), (0, 0), (0, 0), (0, 0), (0, 0)], [(0, 0), (0, 0), (0, 0), (0, 0), (0, 0), (0, 0), (0, 0)], [], TzM, 0⟩ detZ = (⟨8, (0, 0), 12, (0, 0), (-(119/250) : ℚ), (31/200 : ℚ), 0, [(0, 0), (0, 0), (0, 0), (0, 0), (0, 0), (0, 0), (0, 0), (0, 0)], [(0, 0), (0, 0), (0, 0), (0, 0), (0, 0), (0, 0), (0, 0), (0, 0)], [], TzM, 0⟩, [GMove.rel (147/500 : ℚ) (-(81/200) : ℚ), GMove.rel (-(119/250) : ℚ) (31/200 : ℚ)], none) := by
    rw [stateProcess_sweep cfgZ ⟨7, (0, 0), 12, (0, 0), (-(147/500) : ℚ), (81/200 : ℚ), 0, [(0, 0), (0, 0), (0, 0), (0, 0), (0, 0), (0, 0), (0, 0)], [(0, 0), (0, 0), (0, 0), (0, 0), (0, 0), (0, 0), (0, 0)], [], TzM, 0⟩ detZ (by norm_num) (by norm_num)]
    norm_num [detZ, cfgZ, TzM, calibrationCoordinates, CalibState.mk.injEq,
      Prod.mk.injEq, List.getD, getDistance, sqrtRound3, sqrtScaled, roundTo,
      rhe, normalize_coords, tApply, fitVec_app0, fitVec_app1, fitVec_app2,
      fitVec_app3, fitVec_app4, fitVec_app5, Fin.sum_univ_six, Matrix.of_apply]
  have s7eq : stateProcess cfgZ (averageRound (accumDet ⟨7, (0, 0), 11, (0, 0), (-(147/500) : ℚ), (81/200 : ℚ), 0, [(0, 0), (0, 0), (0, 0), (0, 0), (0, 0), (0, 0), (0, 0)], [(0, 0), (0, 0), (0, 0), (0, 0), (0, 0), (0, 0), (0, 0)], [], TzM, 0⟩ detZ)) detZ
      = (⟨8, (0, 0), 12, (0, 0), (-(119/250) : ℚ), (31/200 : ℚ), 0, [(0, 0), (0, 0), (0, 0), (0, 0), (0, 0), (0, 0), (0, 0), (0, 0)], [(0, 0), (0, 0), (0, 0), (0, 0), (0, 0), (0, 0), (0, 0), (0, 0)], [], TzM, 0⟩, [GMove.rel (147/500 : ℚ) (-(81/200) : ℚ), GMove.rel (-(119/250) : ℚ) (31/200 : ℚ)], none) := by
    rw [a7, p7]
  have qq7 : (runCalib cfgZ ⟨7, (0, 0), 11, (0, 0), (-(147/500) : ℚ), (81/200 : ℚ), 0, [(0, 0), (0, 0), (0, 0), (0, 0), (0, 0), (0, 0), (0, 0)], [(0, 0), (0, 0), (0, 0), (0, 0), (0, 0), (0, 0), (0, 0)], [], TzM, 0⟩ [detZ, detZ, detZ, detZ, detZ, detZ, detZ, detZ]).2
      = (runCalib cfgZ ⟨8, (0, 0), 12, (0, 0), (-(119/250) : ℚ), (31/200 : ℚ), 0, [(0, 0), (0, 0), (0, 0), (0, 0), (0, 0), (0, 0), (0, 0), (0, 0)], [(0, 0), (0, 0), (0, 0), (0, 0), (0, 0), (0, 0), (0, 0), (0, 0)], [], TzM, 0⟩ [detZ, detZ, detZ, detZ, detZ, detZ]).2 :=
    runCalib_snd_step cfgZ ⟨7, (0, 0), 11, (0, 0), (-(147/500) : ℚ), (81/200 : ℚ), 0, [(0, 0), (0, 0), (0, 0), (0, 0), (0, 0), (0, 0), (0, 0)], [(0, 0), (0, 0), (0, 0), (0, 0), (0, 0), (0, 0), (0, 0)], [], TzM, 0⟩ detZ detZ [detZ, detZ, detZ, detZ, detZ, detZ] _ _ (by norm_num [accumDet]) s7eq
  have a8 : averageRound (accumDet ⟨8, (0, 0), 12, (0, 0), (-(119/250) : ℚ), (31/200 : ℚ), 0, [(0, 0), (0, 0), (0, 0), (0, 0), (0, 0), (0, 0), (0, 0), (0, 0)], [(0, 0), (0, 0), (0, 0), (0, 0), (0, 0), (0, 0), (0, 0), (0, 0)], [], TzM, 0⟩ detZ) = ⟨8, (0, 0), 13, (0, 0), (-(119/250) : ℚ), (31/200 : ℚ), 0, [(0, 0), (0, 0), (0, 0), (0, 0), (0, 0), (0, 0), (0, 0), (0, 0)], [(0, 0), (0, 0), (0, 0), (0, 0), (0, 0), (0, 0), (0, 0), (0, 0)], [], TzM, 0⟩ := by
    norm_num [accumDet, averageRound, initState, detZ, roundTo, rhe, CalibState.mk.injEq, Prod.mk.injEq, TzM]
  have p8 : stateProcess cfgZ ⟨8, (0, 0), 13, (0, 0), (-(119/250) : ℚ), (31/200 : ℚ), 0, [(0, 0), (0, 0), (0, 0), (0, 0), (0, 0), (0, 0), (0, 0), (0, 0)], [(0, 0), (0, 0), (0, 0), (0, 0), (0, 0), (0, 0), (0, 0), (0, 0)], [], TzM, 0⟩ detZ = (⟨9, (0, 0), 13, (0, 0), (-(119/250) : ℚ), (-(31/200) : ℚ), 0, [(0, 0), (0, 0), (0, 0), (0, 0), (0, 0), (0, 0), (0, 0), (0, 0), (0, 0)], [(0, 0), (0, 0), (0, 0), (0, 0), (0, 0), (0, 0), (0, 0), (0, 0), (0, 0)], [], TzM, 0⟩, [GMove.rel (119/250 : ℚ) (-(31/200) : ℚ), GMove.rel (-(119/250) : ℚ) (-(31/200) : ℚ)], none) := by
    rw [stateProcess_sweep cfgZ ⟨8, (0, 0), 13, (0, 0), (-(119/250) : ℚ), (31/200 : ℚ), 0, [(0, 0), (0, 0), (0, 0), (0, 0), (0, 0), (0, 0), (0, 0), (0, 0)], [(0, 0), (0, 0), (0, 0), (0, 0), (0, 0), (0, 0), (0, 0), (0, 0)], [], TzM, 0⟩ detZ (by norm_num) (by norm_num)]
    norm_num [detZ, cfgZ, TzM, calibrationCoordinates, CalibState.mk.injEq,
      Prod.mk.injEq, List.getD, getDistance, sqrtRound3, sqrtScaled, roundTo,
      rhe, normalize_coords, tApply, fitVec_app0, fitVec_app1, fitVec_app2,
      fitVec_app3, fitVec_app4, fitVec_app5, Fin.sum_univ_six, Matrix.of_apply]
  have s8eq : stateProcess cfgZ (averageRound (accumDet ⟨8, (0, 0), 12, (0, 0), (-(119/250) : ℚ), (31/200 : ℚ), 0, [(0, 0), (0, 0), (0, 0), (0, 0), (0, 0), (0, 0), (0, 0), (0, 0)], [(0, 0), (0, 0), (0, 0), (0, 0), (0, 0), (0, 0), (0, 0), (0, 0)], [], TzM, 0⟩ detZ)) detZ
      = (⟨9, (0, 0), 13, (0, 0), (-(119/250) : ℚ), (-(31/200) : ℚ), 0, [(0, 0), (0, 0), (0, 0), (0, 0), (0, 0), (0, 0), (0, 0), (0, 0), (0, 0)], [(0, 0), (0, 0), (0, 0), (0, 0), (0, 0), (0, 0), (0, 0), (0, 0), (0, 0)], [], TzM, 0⟩, [GMove.rel (119/250 : ℚ) (-(31/200) : ℚ), GMove.rel (-(119/250) : ℚ) (-(31/200) : ℚ)], none) := by
    rw [a8, p8]
  have qq8 : (runCalib cfgZ ⟨8, (0, 0), 12, (0, 0), (-(119/250) : ℚ), (31/200 : ℚ), 0, [(0, 0), (0, 0), (0, 0), (0, 0), (0, 0), (0, 0), (0, 0), (0, 0)], [(0, 0), (0, 0), (0, 0), (0, 0), (0, 0), (0, 0), (0, 0), (0, 0)], [], TzM, 0⟩ [detZ, detZ, detZ, detZ, detZ, detZ]).2
      = (runCalib cfgZ ⟨9, (0, 0), 13, (0, 0), (-(119/250) : ℚ), (-(31/200) : ℚ), 0, [(0, 0), (0, 0), (0, 0), (0, 0), (0, 0), (0, 0), (0, 0), (0, 0), (0, 0)], [(0, 0), (0, 0), (0, 0), (0, 0), (0, 0), (0, 0), (0, 0), (0, 0), (0, 0)], [], TzM, 0⟩ [detZ, detZ, detZ, detZ]).2 :=
    runCalib_snd_step cfgZ ⟨8, (0, 0), 12, (0, 0), (-(119/250) : ℚ), (31/200 : ℚ), 0, [(0, 0), (0, 0), (0, 0), (0, 0), (0, 0), (0, 0), (0, 0), (0, 0)], [(0, 0), (0, 0), (0, 0), (0, 0), (0, 0), (0, 0), (0, 0), (0, 0)], [], TzM, 0⟩ detZ detZ [detZ, detZ, detZ, detZ] _ _ (by norm_num [accumDet]) s8eq
  have a9 : averageRound (accumDet ⟨9, (0, 0), 13, (0, 0), (-(119/250) : ℚ), (-(31/200) : ℚ), 0, [(0, 0), (0, 0), (0, 0), (0, 0), (0, 0), (0, 0), (0, 0), (0, 0), (0, 0)], [(0, 0), (0, 0), (0, 0), (0, 0), (0, 0), (0, 0), (0, 0), (0, 0), (0, 0)], [], TzM, 0⟩ detZ) = ⟨9, (0, 0), 14, (0, 0), (-(119/250) : ℚ), (-(31/200) : ℚ), 0, [(0, 0), (0, 0), (0, 0), (0, 0), (0, 0), (0, 0), (0, 0), (0, 0), (0, 0)], [(0, 0), (0, 0), (0, 0), (0, 0), (0, 0), (0, 0), (0, 0), (0, 0), (0, 0)], [], TzM, 0⟩ := by
    norm_num [accumDet, averageRound, initState, detZ, roundTo, rhe, CalibState.mk.injEq, Prod.mk.injEq, TzM]
  have p9 : stateProcess cfgZ ⟨9, (0, 0), 14, (0, 0), (-(119/250) : ℚ), (-(31/200) : ℚ), 0, [(0, 0), (0, 0), (0, 0), (0, 0), (0, 0), (0, 0), (0, 0), (0, 0), (0, 0)], [(0, 0), (0, 0), (0, 0), (0, 0), (0, 0), (0, 0), (0, 0), (0, 0), (0, 0)], [], TzM, 0⟩ detZ = (⟨10, (0, 0), 14, (0, 0), (-(147/500) : ℚ), (-(81/200) : ℚ), 0, [(0, 0), (0, 0), (0, 0), (0, 0), (0, 0), (0, 0), (0, 0), (0, 0), (0, 0), (0, 0)], [(0, 0), (0, 0), (0, 0), (0, 0), (0, 0), (0, 0), (0, 0), (0, 0), (0, 0), (0, 0)], [], TzM, 0⟩, [GMove.rel (119/250 : ℚ) (31/200 : ℚ), GMove.rel (-(147/500) : ℚ) (-(81/200) : ℚ)], none) := by
    rw [stateProcess_sweep cfgZ ⟨9, (0, 0), 14, (0, 0), (-(119/250) : ℚ), (-(31/200) : ℚ), 0, [(0, 0), (0, 0), (0, 0), (0, 0), (0, 0), (0, 0), (0, 0), (0, 0), (0, 0)], [(0, 0), (0, 0), (0, 0), (0, 0), (0, 0), (0, 0), (0, 0), (0, 0), (0, 0)], [], TzM, 0⟩ detZ (by norm_num) (by norm_num)]
    norm_num [detZ, cfgZ, TzM, calibrationCoordinates, CalibState.mk.injEq,
      Prod.mk.injEq, List.getD, getDistance, sqrtRound3, sqrtScaled, roundTo,
      rhe, normalize_coords, tApply, fitVec_app0, fitVec_app1, fitVec_app2,
      fitVec_app3, fitVec_app4, fitVec_app5, Fin.sum_univ_six, Matrix.of_apply]
  have s9eq : stateProcess cfgZ (averageRound (accumDet ⟨9, (0, 0), 13, (0, 0), (-(119/250) : ℚ), (-(31/200) : ℚ), 0, [(0, 0), (0, 0), (0, 0), (0, 0), (0, 0), (0, 0), (0, 0), (0, 0), (0, 0)], [(0, 0), (0, 0), (0, 0), (0, 0), (0, 0), (0, 0), (0, 0), (0, 0), (0, 0)], [], TzM, 0⟩ detZ)) detZ
      = (⟨10, (0, 0), 14, (0, 0), (-(147/500) : ℚ), (-(81/200) : ℚ), 0, [(0, 0), (0, 0), (0, 0), (0, 0), (0, 0), (0, 0), (0, 0), (0, 0), (0, 0), (0, 0)], [(0, 0), (0, 0), (0, 0), (0, 0), (0, 0), (0, 0), (0, 0), (0, 0), (0, 0), (0, 0)], [], TzM, 0⟩, [GMove.rel (119/250 : ℚ) (31/200 : ℚ), GMove.rel (-(147/500) : ℚ) (-(81/200) : ℚ)], none) := by
    rw [a9, p9]
  have qq9 : (runCalib cfgZ ⟨9, (0, 0), 13, (0, 0), (-(119/250) : ℚ), (-(31/200) : ℚ), 0, [(0, 0), (0, 0), (0, 0), (0, 0), (0, 0), (0, 0), (0, 0), (0, 0), (0, 0)], [(0, 0), (0, 0), (0, 0), (0, 0), (0, 0), (0, 0), (0, 0), (0, 0), (0, 0)], [], TzM, 0⟩ [detZ, detZ, detZ, detZ]).2
      = (runCalib cfgZ ⟨10, (0, 0), 14, (0, 0), (-(147/500) : ℚ), (-(81/200) : ℚ), 0, [(0, 0), (0, 0), (0, 0), (0, 0), (0, 0), (0, 0), (0, 0), (0, 0), (0, 0), (0, 0)], [(0, 0), (0, 0), (0, 0), (0, 0), (0, 0), (0, 0), (0, 0), (0, 0), (0, 0), (0, 0)], [], TzM, 0⟩ [detZ, detZ]).2 :=
    runCalib_snd_step cfgZ ⟨9, (0, 0), 13, (0, 0), (-(119/250) : ℚ), (-(31/200) : ℚ), 0, [(0, 0), (0, 0), (0, 0), (0, 0), (0, 0), (0, 0), (0, 0), (0, 0), (0, 0)], [(0, 0), (0, 0), (0, 0), (0, 0), (0, 0), (0, 0), (0, 0), (0, 0), (0, 0)], [], TzM, 0⟩ detZ detZ [detZ, detZ] _ _ (by norm_num [accumDet]) s9eq
  have a10 : averageRound (accumDet ⟨10, (0, 0), 14, (0, 0), (-(147/500) : ℚ), (-(81/200) : ℚ), 0, [(0, 0), (0, 0), (0, 0), (0, 0), (0, 0), (0, 0), (0, 0), (0, 0), (0, 0), (0, 0)], [(0, 0), (0, 0), (0, 0), (0, 0), (0, 0), (0, 0), (0, 0), (0, 0), (0, 0), (0, 0)], [], TzM, 0⟩ detZ) = ⟨10, (0, 0), 15, (0, 0), (-(147/500) : ℚ), (-(81/200) : ℚ), 0, [(0, 0), (0, 0), (0, 0), (0, 0), (0, 0), (0, 0), (0, 0), (0, 0), (0, 0), (0, 0)], [(0, 0), (0, 0), (0, 0), (0, 0), (0, 0), (0, 0), (0, 0), (0, 0), (0, 0), (0, 0)], [], TzM, 0⟩ := by
    norm_num [accumDet, averageRound, initState, detZ, roundTo, rhe, CalibState.mk.injEq, Prod.mk.injEq, TzM]
  have p10 : stateProcess cfgZ ⟨10, (0, 0), 15, (0, 0), (-(147/500) : ℚ), (-(81/200) : ℚ), 0, [(0, 0), (0, 0), (0, 0), (0, 0), (0, 0), (0, 0), (0, 0), (0, 0), (0, 0), (0, 0)], [(0, 0), (0, 0), (0, 0), (0, 0), (0, 0), (0, 0), (0, 0), (0, 0), (0, 0), (0, 0)], [], TzM, 0⟩ detZ = (⟨200, (0, 0), 15, (0, 0), (-(147/500) : ℚ), (-(81/200) : ℚ), 0, [(0, 0), (0, 0), (0, 0), (0, 0), (0, 0), (0, 0), (0, 0), (0, 0), (0, 0), (0, 0), (0, 0)], [(0, 0), (0, 0), (0, 0), (0, 0), (0, 0), (0, 0), (0, 0), (0, 0), (0, 0), (0, 0), (0, 0)], [((0, 0), ((-(1/2) : ℚ), (-(1/2) : ℚ))), ((0, 0), ((-(1/2) : ℚ), (-(1/2) : ℚ))), ((0, 0), ((-(1/2) : ℚ), (-(1/2) : ℚ))), ((0, 0), ((-(1/2) : ℚ), (-(1/2) : ℚ))), ((0, 0), ((-(1/2) : ℚ), (-(1/2) : ℚ))), ((0, 0), ((-(1/2) : ℚ), (-(1/2) : ℚ))), ((0, 0), ((-(1/2) : ℚ), (-(1/2) : ℚ))), ((0, 0), ((-(1/2) : ℚ), (-(1/2) : ℚ))), ((0, 0), ((-(1/2) : ℚ), (-(1/2) : ℚ))), ((0, 0), ((-(1/2) : ℚ), (-(1/2) : ℚ))), ((0, 0), ((-(1/2) : ℚ), (-(1/2) : ℚ)))], TzM, 0⟩, [GMove.absMove 0 0], none) := by
    rw [stateProcess_state10 cfgZ ⟨10, (0, 0), 15, (0, 0), (-(147/500) : ℚ), (-(81/200) : ℚ), 0, [(0, 0), (0, 0), (0, 0), (0, 0), (0, 0), (0, 0), (0, 0), (0, 0), (0, 0), (0, 0)], [(0, 0), (0, 0), (0, 0), (0, 0), (0, 0), (0, 0), (0, 0), (0, 0), (0, 0), (0, 0)], [], TzM, 0⟩ detZ rfl]
    norm_num [detZ, cfgZ, TzM, calibrationCoordinates, CalibState.mk.injEq,
      Prod.mk.injEq, List.getD, getDistance, sqrtRound3, sqrtScaled, roundTo,
      rhe, normalize_coords, tApply, fitVec_app0, fitVec_app1, fitVec_app2,
      fitVec_app3, fitVec_app4, fitVec_app5, Fin.sum_univ_six, Matrix.of_apply]
  have s10eq : stateProcess cfgZ (averageRound (accumDet ⟨10, (0, 0), 14, (0, 0), (-(147/500) : ℚ), (-(81/200) : ℚ), 0, [(0, 0), (0, 0), (0, 0), (0, 0), (0, 0), (0, 0), (0, 0), (0, 0), (0, 0), (0, 0)], [(0, 0), (0, 0), (0, 0), (0, 0), (0, 0), (0, 0), (0, 0), (0, 0), (0, 0), (0, 0)], [], TzM, 0⟩ detZ)) detZ
      = (⟨200, (0, 0), 15, (0, 0), (-(147/500) : ℚ), (-(81/200) : ℚ), 0, [(0, 0), (0, 0), (0, 0), (0, 0), (0, 0), (0, 0), (0, 0), (0, 0), (0, 0), (0, 0), (0, 0)], [(0, 0), (0, 0), (0, 0), (0, 0), (0, 0), (0, 0), (0, 0), (0, 0), (0, 0), (0, 0), (0, 0)], [((0, 0), ((-(1/2) : ℚ), (-(1/2) : ℚ))), ((0, 0), ((-(1/2) : ℚ), (-(1/2) : ℚ))), ((0, 0), ((-(1/2) : ℚ), (-(1/2) : ℚ))), ((0, 0), ((-(1/2) : ℚ), (-(1/2) : ℚ))), ((0, 0), ((-(1/2) : ℚ), (-(1/2) : ℚ))), ((0, 0), ((-(1/2) : ℚ), (-(1/2) : ℚ))), ((0, 0), ((-(1/2) : ℚ), (-(1/2) : ℚ))), ((0, 0), ((-(1/2) : ℚ), (-(1/2) : ℚ))), ((0, 0), ((-(1/2) : ℚ), (-(1/2) : ℚ))), ((0, 0), ((-(1/2) : ℚ), (-(1/2) : ℚ))), ((0, 0), ((-(1/2) : ℚ), (-(1/2) : ℚ)))], TzM, 0⟩, [GMove.absMove 0 0], none) := by
    rw [a10, p10]
  have qq10 : (runCalib cfgZ ⟨10, (0, 0), 14, (0, 0), (-(147/500) : ℚ), (-(81/200) : ℚ), 0, [(0, 0), (0, 0), (0, 0), (0, 0), (0, 0), (0, 0), (0, 0), (0, 0), (0, 0), (0, 0)], [(0, 0), (0, 0), (0, 0), (0, 0), (0, 0), (0, 0), (0, 0), (0, 0), (0, 0), (0, 0)], [], TzM, 0⟩ [detZ, detZ]).2
      = (runCalib cfgZ ⟨200, (0, 0), 15, (0, 0), (-(147/500) : ℚ), (-(81/200) : ℚ), 0, [(0, 0), (0, 0), (0, 0), (0, 0), (0, 0), (0, 0), (0, 0), (0, 0), (0, 0), (0, 0), (0, 0)], [(0, 0), (0, 0), (0, 0), (0, 0), (0, 0), (0, 0), (0, 0), (0, 0), (0, 0), (0, 0), (0, 0)], [((0, 0), ((-(1/2) : ℚ), (-(1/2) : ℚ))), ((0, 0), ((-(1/2) : ℚ), (-(1/2) : ℚ))), ((0, 0), ((-(1/2) : ℚ), (-(1/2) : ℚ))), ((0, 0), ((-(1/2) : ℚ), (-(1/2) : ℚ))), ((0, 0), ((-(1/2) : ℚ), (-(1/2) : ℚ))), ((0, 0), ((-(1/2) : ℚ), (-(1/2) : ℚ))), ((0, 0), ((-(1/2) : ℚ), (-(1/2) : ℚ))), ((0, 0), ((-(1/2) : ℚ), (-(1/2) : ℚ))), ((0, 0), ((-(1/2) : ℚ), (-(1/2) : ℚ))), ((0, 0), ((-(1/2) : ℚ), (-(1/2) : ℚ))), ((0, 0), ((-(1/2) : ℚ), (-(1/2) : ℚ)))], TzM, 0⟩ []).2 :=
    runCalib_snd_step cfgZ ⟨10, (0, 0), 14, (0, 0), (-(147/500) : ℚ), (-(81/200) : ℚ), 0, [(0, 0), (0, 0), (0, 0), (0, 0), (0, 0), (0, 0), (0, 0), (0, 0), (0, 0), (0, 0)], [(0, 0), (0, 0), (0, 0), (0, 0), (0, 0), (0, 0), (0, 0), (0, 0), (0, 0), (0, 0)], [], TzM, 0⟩ detZ detZ [] _ _ (by norm_num [accumDet]) s10eq
  have fin1 : (runCalib cfgZ ⟨200, (0, 0), 15, (0, 0), (-(147/500) : ℚ), (-(81/200) : ℚ), 0, [(0, 0), (0, 0), (0, 0), (0, 0), (0, 0), (0, 0), (0, 0), (0, 0), (0, 0), (0, 0), (0, 0)], [(0, 0), (0, 0), (0, 0), (0, 0), (0, 0), (0, 0), (0, 0), (0, 0), (0, 0), (0, 0), (0, 0)], [((0, 0), ((-(1/2) : ℚ), (-(1/2) : ℚ))), ((0, 0), ((-(1/2) : ℚ), (-(1/2) : ℚ))), ((0, 0), ((-(1/2) : ℚ), (-(1/2) : ℚ))), ((0, 0), ((-(1/2) : ℚ), (-(1/2) : ℚ))), ((0, 0), ((-(1/2) : ℚ), (-(1/2) : ℚ))), ((0, 0), ((-(1/2) : ℚ), (-(1/2) : ℚ))), ((0, 0), ((-(1/2) : ℚ), (-(1/2) : ℚ))), ((0, 0), ((-(1/2) : ℚ), (-(1/2) : ℚ))), ((0, 0), ((-(1/2) : ℚ), (-(1/2) : ℚ))), ((0, 0), ((-(1/2) : ℚ), (-(1/2) : ℚ))), ((0, 0), ((-(1/2) : ℚ), (-(1/2) : ℚ)))], TzM, 0⟩ ([] : List Detection)).2 = RunOut.starve ⟨200, (0, 0), 15, (0, 0), (-(147/500) : ℚ), (-(81/200) : ℚ), 0, [(0, 0), (0, 0), (0, 0), (0, 0), (0, 0), (0, 0), (0, 0), (0, 0), (0, 0), (0, 0), (0, 0)], [(0, 0), (0, 0), (0, 0), (0, 0), (0, 0), (0, 0), (0, 0), (0, 0), (0, 0), (0, 0), (0, 0)], [((0, 0), ((-(1/2) : ℚ), (-(1/2) : ℚ))), ((0, 0), ((-(1/2) : ℚ), (-(1/2) : ℚ))), ((0, 0), ((-(1/2) : ℚ), (-(1/2) : ℚ))), ((0, 0), ((-(1/2) : ℚ), (-(1/2) : ℚ))), ((0, 0), ((-(1/2) : ℚ), (-(1/2) : ℚ))), ((0, 0), ((-(1/2) : ℚ), (-(1/2) : ℚ))), ((0, 0), ((-(1/2) : ℚ), (-(1/2) : ℚ))), ((0, 0), ((-(1/2) : ℚ), (-(1/2) : ℚ))), ((0, 0), ((-(1/2) : ℚ), (-(1/2) : ℚ))), ((0, 0), ((-(1/2) : ℚ), (-(1/2) : ℚ))), ((0, 0), ((-(1/2) : ℚ), (-(1/2) : ℚ)))], TzM, 0⟩ := by
    rw [runCalib]
  rw [t0, t1, t2, t3]
  rw [qq0, qq1, qq2, qq3, qq4, qq5, qq6, qq7, qq8, qq9, qq10, fin1]
  norm_num [starveState]


theorem runCalib_snd_done (cfg : CalCfg) (s : CalibState) (d d2 : Detection)
    (ds2 : List Detection) (s3 : CalibState) (mv3 : List GMove) (r : ResultRecord)
    (h5 : ¬ (accumDet s d).detect_count < 5)
    (hsp : stateProcess cfg (averageRound (accumDet s d)) d2 = (s3, mv3, some r)) :
    runCalib cfg s (d :: d2 :: ds2) = (mv3, RunOut.done r ds2) := by
  rw [runCalib.eq_def]
  try dsimp only
  rw [if_neg h5]
  try dsimp only
  rw [show (stateProcess cfg (averageRound (accumDet s d)) d2).2.2 = some r by rw [hsp]]
  try dsimp only
  rw [show (stateProcess cfg (averageRound (accumDet s d)) d2).2.1 = mv3 by rw [hsp]]

theorem sweep_sample_count_witness :
    ((stateAt 0).state = 0
      ∧ (stateProcess cfgZ (stateAt 0) detZ).1.camera_coordinates.length = 1
      ∧ (stateProcess cfgZ (stateAt 0) detZ).1.space_coordinates.length = 1
      ∧ (stateProcess cfgZ (stateAt 0) detZ).1.state = 1)
    ∧ ((stateAt 3).state ≠ 0 ∧ (stateAt 3).state < 10
      ∧ (stateProcess cfgZ (stateAt 3) detZ).1.camera_coordinates.length
          = (stateAt 3).camera_coordinates.length + 1
      ∧ (stateProcess cfgZ (stateAt 3) detZ).1.space_coordinates.length
          = (stateAt 3).space_coordinates.length + 1
      ∧ (stateProcess cfgZ (stateAt 3) detZ).1.state = (stateAt 3).state + 1)
    ∧ (s10.state = 10 ∧ s10.camera_coordinates.length = 10
      ∧ s10.space_coordinates.length = 10
      ∧ (stateProcess cfgZ s10 detZ).1.transform_input.length = 11
      ∧ (stateProcess cfgZ s10 detZ).1.transform
          = (cfgZ.solver ((stateProcess cfgZ s10 detZ).1.transform_input)).1
      ∧ (stateProcess cfgZ s10 detZ).1.state = 200) := by
  obtain ⟨h1, h2, h3⟩ := sweep_sample_count
  refine ⟨⟨rfl, h1 cfgZ (stateAt 0) detZ rfl⟩, ?_, ?_⟩
  · obtain ⟨a, b, c⟩ := h2 cfgZ (stateAt 3) detZ (by norm_num [stateAt, initState])
      (by norm_num [stateAt, initState])
    exact ⟨by norm_num [stateAt, initState], by norm_num [stateAt, initState], a, b, c⟩
  · obtain ⟨a, b, c⟩ := h3 cfgZ s10 detZ rfl (by norm_num [s10, stateAt, initState])
      (by norm_num [s10, stateAt, initState])
    exact ⟨rfl, by norm_num [s10, stateAt, initState],
      by norm_num [s10, stateAt, initState], a, b, c⟩

theorem averaging_unused_witness :
    ((accumDet (stateAt 0) detZ).detect_count < 5
      ∧ runCalib cfgZ (stateAt 0) (detZ :: [])
          = runCalib cfgZ (accumDet (stateAt 0) detZ) [])
    ∧ ((accumDet s4 detZ).detect_count = s4.detect_count + 1
      ∧ (accumDet s4 detZ).average_location
          = (s4.average_location.1 + detZ.xy.1, s4.average_location.2 + detZ.xy.2))
    ∧ (¬ (accumDet s4 detZ).detect_count < 5
      ∧ runCalib cfgZ s4 (detZ :: detZ :: [])
          = (match (stateProcess cfgZ (averageRound (accumDet s4 detZ)) detZ).2.2 with
             | some r => ((stateProcess cfgZ (averageRound (accumDet s4 detZ)) detZ).2.1,
                 RunOut.done r [])
             | none => ((stateProcess cfgZ (averageRound (accumDet s4 detZ)) detZ).2.1
                   ++ (runCalib cfgZ
                        (stateProcess cfgZ (averageRound (accumDet s4 detZ)) detZ).1 []).1,
                 (runCalib cfgZ
                    (stateProcess cfgZ (averageRound (accumDet s4 detZ)) detZ).1 []).2)))
    ∧ stateProcess cfgZ { s4 with average_location := (7, 9) } detZ
        = ({ (stateProcess cfgZ s4 detZ).1 with average_location := (7, 9) },
           (stateProcess cfgZ s4 detZ).2) := by
  obtain ⟨h1, h2, h3, h4⟩ := averaging_unused
  have hc1 : (accumDet (stateAt 0) detZ).detect_count < 5 := by
    norm_num [accumDet, stateAt, initState]
  have hc3 : ¬ (accumDet s4 detZ).detect_count < 5 := by
    norm_num [accumDet, s4, initState]
  exact ⟨⟨hc1, h1 cfgZ (stateAt 0) detZ [] hc1⟩,
         h2 s4 detZ,
         ⟨hc3, h3 cfgZ s4 detZ detZ [] hc3⟩,
         h4 cfgZ s4 detZ (7, 9)⟩

set_option maxHeartbeats 1000000 in
/-- C5 counterexample: running the controller on five detections at
(10,10)…(50,50) followed by a confirming detection at (60,60), the sample
recorded by the state dispatch is `[(60, 60)]` — the raw confirming
detection — while the computed average is `(30, 30)`; the averaged value
is *not* used as the position estimate. -/
theorem averaging_unused_counterexample :
    ((starveState (runCalib cfgZ (initState none)
        [detD 1, detD 2, detD 3, detD 4, detD 5, detD 6]).2).map
      fun s => (s.camera_coordinates, s.average_location, s.state))
    = some ([((60 : ℚ), (60 : ℚ))], ((30 : ℚ), (30 : ℚ)), 1)
    ∧ ((60 : ℚ), (60 : ℚ)) ≠ ((30 : ℚ), (30 : ℚ)) := by
  constructor
  · have e0 : accumDet (initState none) (detD 1)
        = ⟨0, (10, 10), 1, (0, 0), 0, 0, 0, [], [], [], TzM, 0⟩ := by
      norm_num [accumDet, initState, detD, CalibState.mk.injEq, Prod.mk.injEq, TzM]
    have t0 : runCalib cfgZ (initState none) [detD 1, detD 2, detD 3, detD 4, detD 5, detD 6]
        = runCalib cfgZ (⟨0, (10, 10), 1, (0, 0), 0, 0, 0, [], [], [], TzM, 0⟩ : CalibState)
            [detD 2, detD 3, detD 4, detD 5, detD 6] := by
      rw [runCalib_below cfgZ (initState none) (detD 1) _ (by rw [e0]; norm_num), e0]
    have e1 : accumDet (⟨0, (10, 10), 1, (0, 0), 0, 0, 0, [], [], [], TzM, 0⟩ : CalibState) (detD 2)
        = ⟨0, (30, 30), 2, (0, 0), 0, 0, 0, [], [], [], TzM, 0⟩ := by
      norm_num [accumDet, detD, CalibState.mk.injEq, Prod.mk.injEq]
    have t1 : runCalib cfgZ (⟨0, (10, 10), 1, (0, 0), 0, 0, 0, [], [], [], TzM, 0⟩ : CalibState)
          [detD 2, detD 3, detD 4, detD 5, detD 6]
        = runCalib cfgZ (⟨0, (30, 30), 2, (0, 0), 0, 0, 0, [], [], [], TzM, 0⟩ : CalibState)
            [detD 3, detD 4, detD 5, detD 6] := by
      rw [runCalib_below cfgZ _ (detD 2) _ (by rw [e1]; norm_num), e1]
    have e2 : accumDet (⟨0, (30, 30), 2, (0, 0), 0, 0, 0, [], [], [], TzM, 0⟩ : CalibState) (detD 3)
        = ⟨0, (60, 60), 3, (0, 0), 0, 0, 0, [], [], [], TzM, 0⟩ := by
      norm_num [accumDet, detD, CalibState.mk.injEq, Prod.mk.injEq]
    have t2 : runCalib cfgZ (⟨0, (30, 30), 2, (0, 0), 0, 0, 0, [], [], [], TzM, 0⟩ : CalibState)
          [detD 3, detD 4, detD 5, detD 6]
        = runCalib cfgZ (⟨0, (60, 60), 3, (0, 0), 0, 0, 0, [], [], [], TzM, 0⟩ : CalibState)
            [detD 4, detD 5, detD 6] := by
      rw [runCalib_below cfgZ _ (detD 3) _ (by rw [e2]; norm_num), e2]
    have e3 : accumDet (⟨0, (60, 60), 3, (0, 0), 0, 0, 0, [], [], [], TzM, 0⟩ : CalibState) (detD 4)
        = ⟨0, (100, 100), 4, (0, 0), 0, 0, 0, [], [], [], TzM, 0⟩ := by
      norm_num [accumDet, detD, CalibState.mk.injEq, Prod.mk.injEq]
    have t3 : runCalib cfgZ (⟨0, (60, 60), 3, (0, 0), 0, 0, 0, [], [], [], TzM, 0⟩ : CalibState)
          [detD 4, detD 5, detD 6]
        = runCalib cfgZ (⟨0, (100, 100), 4, (0, 0), 0, 0, 0, [], [], [], TzM, 0⟩ : CalibState)
            [detD 5, detD 6] := by
      rw [runCalib_below cfgZ _ (detD 4) _ (by rw [e3]; norm_num), e3]
    have a4 : averageRound (accumDet
          (⟨0, (100, 100), 4, (0, 0), 0, 0, 0, [], [], [], TzM, 0⟩ : CalibState) (detD 5))
        = ⟨0, (30, 30), 5, (0, 0), 0, 0, 0, [], [], [], TzM, 0⟩ := by
      norm_num [accumDet, averageRound, detD, roundTo, rhe, CalibState.mk.injEq, Prod.mk.injEq]
    have p4 : stateProcess cfgZ
          (⟨0, (30, 30), 5, (0, 0), 0, 0, 0, [], [], [], TzM, 0⟩ : CalibState) (detD 6)
        = (⟨1, (30, 30), 5, (60, 60), 0, -(1/2), 0, [(0, 0)], [(60, 60)], [], TzM, 0⟩,
           [GMove.rel 0 (-(1/2))], none) := by
      rw [stateProcess_state0 cfgZ _ (detD 6) rfl]
      norm_num [detD, calibrationCoordinates, List.getD, CalibState.mk.injEq, Prod.mk.injEq]
    have s4eq : stateProcess cfgZ (averageRound (accumDet
          (⟨0, (100, 100), 4, (0, 0), 0, 0, 0, [], [], [], TzM, 0⟩ : CalibState) (detD 5))) (detD 6)
        = (⟨1, (30, 30), 5, (60, 60), 0, -(1/2), 0, [(0, 0)], [(60, 60)], [], TzM, 0⟩,
           [GMove.rel 0 (-(1/2))], none) := by
      rw [a4, p4]
    have q4 : (runCalib cfgZ (⟨0, (100, 100), 4, (0, 0), 0, 0, 0, [], [], [], TzM, 0⟩ : CalibState)
          [detD 5, detD 6]).2
        = (runCalib cfgZ
            (⟨1, (30, 30), 5, (60, 60), 0, -(1/2), 0, [(0, 0)], [(60, 60)], [], TzM, 0⟩ : CalibState)
            []).2 :=
      runCalib_snd_step cfgZ _ (detD 5) (detD 6) [] _ _ (by norm_num [accumDet]) s4eq
    have fin1 : (runCalib cfgZ
          (⟨1, (30, 30), 5, (60, 60), 0, -(1/2), 0, [(0, 0)], [(60, 60)], [], TzM, 0⟩ : CalibState)
          ([] : List Detection)).2
        = RunOut.starve
            (⟨1, (30, 30), 5, (60, 60), 0, -(1/2), 0, [(0, 0)], [(60, 60)], [], TzM, 0⟩ : CalibState) := by
      rw [runCalib]
    rw [t0, t1, t2, t3, q4, fin1]
    norm_num [starveState]
  · norm_num

set_option maxHeartbeats 1000000 in
theorem result_record_fields_witness :
    roundTo 4 (initState (some TzM)).mpp = (initState (some TzM)).mpp
    ∧ runCalib cfgZ (initState (some TzM)) (List.replicate 6 detZ)
        = ([GMove.rel 0 0], RunOut.done ⟨2, 0, 0, 100, 100⟩ [])
    ∧ ((⟨2, 0, 0, 100, 100⟩ : ResultRecord).tool = cfgZ.tool
      ∧ (⟨2, 0, 0, 100, 100⟩ : ResultRecord).cycle = cfgZ.rep
      ∧ roundTo 3 (⟨2, 0, 0, 100, 100⟩ : ResultRecord).X
          = (⟨2, 0, 0, 100, 100⟩ : ResultRecord).X
      ∧ roundTo 3 (⟨2, 0, 0, 100, 100⟩ : ResultRecord).Y
          = (⟨2, 0, 0, 100, 100⟩ : ResultRecord).Y
      ∧ roundTo 4 (⟨2, 0, 0, 100, 100⟩ : ResultRecord).mpp
          = (⟨2, 0, 0, 100, 100⟩ : ResultRecord).mpp) := by
  have hmpp : roundTo 4 (initState (some TzM)).mpp = (initState (some TzM)).mpp := by
    norm_num [initState, roundTo, rhe]
  have hrun : runCalib cfgZ (initState (some TzM)) (List.replicate 6 detZ)
      = ([GMove.rel 0 0], RunOut.done ⟨2, 0, 0, 100, 100⟩ []) := by
    rw [show List.replicate 6 detZ = [detZ, detZ, detZ, detZ, detZ, detZ] from rfl]
    have e0 : accumDet (initState (some TzM)) detZ
        = ⟨200, (0, 0), 1, (0, 0), 0, 0, 0, [], [], [], TzM, 0⟩ := by
      norm_num [accumDet, initState, detZ, CalibState.mk.injEq, Prod.mk.injEq, TzM]
    have t0 : runCalib cfgZ (initState (some TzM)) [detZ, detZ, detZ, detZ, detZ, detZ]
        = runCalib cfgZ (⟨200, (0, 0), 1, (0, 0), 0, 0, 0, [], [], [], TzM, 0⟩ : CalibState)
            [detZ, detZ, detZ, detZ, detZ] := by
      rw [runCalib_below cfgZ (initState (some TzM)) detZ _ (by rw [e0]; norm_num), e0]
    have e1 : accumDet (⟨200, (0, 0), 1, (0, 0), 0, 0, 0, [], [], [], TzM, 0⟩ : CalibState) detZ
        = ⟨200, (0, 0), 2, (0, 0), 0, 0, 0, [], [], [], TzM, 0⟩ := by
      norm_num [accumDet, detZ, CalibState.mk.injEq, Prod.mk.injEq]
    have t1 : runCalib cfgZ (⟨200, (0, 0), 1, (0, 0), 0, 0, 0, [], [], [], TzM, 0⟩ : CalibState)
          [detZ, detZ, detZ, detZ, detZ]
        = runCalib cfgZ (⟨200, (0, 0), 2, (0, 0), 0, 0, 0, [], [], [], TzM, 0⟩ : CalibState)
            [detZ, detZ, detZ, detZ] := by
      rw [runCalib_below cfgZ _ detZ _ (by rw [e1]; norm_num), e1]
    have e2 : accumDet (⟨200, (0, 0), 2, (0, 0), 0, 0, 0, [], [], [], TzM, 0⟩ : CalibState) detZ
        = ⟨200, (0, 0), 3, (0, 0), 0, 0, 0, [], [], [], TzM, 0⟩ := by
      norm_num [accumDet, detZ, CalibState.mk.injEq, Prod.mk.injEq]
    have t2 : runCalib cfgZ (⟨200, (0, 0), 2, (0, 0), 0, 0, 0, [], [], [], TzM, 0⟩ : CalibState)
          [detZ, detZ, detZ, detZ]
        = runCalib cfgZ (⟨200, (0, 0), 3, (0, 0), 0, 0, 0, [], [], [], TzM, 0⟩ : CalibState)
            [detZ, detZ, detZ] := by
      rw [runCalib_below cfgZ _ detZ _ (by rw [e2]; norm_num), e2]
    have e3 : accumDet (⟨200, (0, 0), 3, (0, 0), 0, 0, 0, [], [], [], TzM, 0⟩ : CalibState) detZ
        = ⟨200, (0, 0), 4, (0, 0), 0, 0, 0, [], [], [], TzM, 0⟩ := by
      norm_num [accumDet, detZ, CalibState.mk.injEq, Prod.mk.injEq]
    have t3 : runCalib cfgZ (⟨200, (0, 0), 3, (0, 0), 0, 0, 0, [], [], [], TzM, 0⟩ : CalibState)
          [detZ, detZ, detZ]
        = runCalib cfgZ (⟨200, (0, 0), 4, (0, 0), 0, 0, 0, [], [], [], TzM, 0⟩ : CalibState)
            [detZ, detZ] := by
      rw [runCalib_below cfgZ _ detZ _ (by rw [e3]; norm_num), e3]
    have a4 : averageRound (accumDet
          (⟨200, (0, 0), 4, (0, 0), 0, 0, 0, [], [], [], TzM, 0⟩ : CalibState) detZ)
        = ⟨200, (0, 0), 5, (0, 0), 0, 0, 0, [], [], [], TzM, 0⟩ := by
      norm_num [accumDet, averageRound, detZ, roundTo, rhe, CalibState.mk.injEq, Prod.mk.injEq]
    have hoffs : convergeOffsets TzM cfgZ.w cfgZ.h detZ.xy = (0, 0) := by
      unfold convergeOffsets tApply TzM
      norm_num [roundTo, rhe]
    have p4 : stateProcess cfgZ
          (⟨200, (0, 0), 5, (0, 0), 0, 0, 0, [], [], [], TzM, 0⟩ : CalibState) detZ
        = (⟨200, (0, 0), 5, (0, 0), 0, 0, 0, [], [], [], TzM, 1⟩,
           [GMove.rel 0 0], some ⟨2, 0, 0, 100, 100⟩) := by
      rw [stateProcess_state200 cfgZ _ detZ rfl]
      simp only [hoffs]
      norm_num [finalOffset, cfgZ, detZ, roundTo, rhe, CalibState.mk.injEq, Prod.mk.injEq]
    have s4eq : stateProcess cfgZ (averageRound (accumDet
          (⟨200, (0, 0), 4, (0, 0), 0, 0, 0, [], [], [], TzM, 0⟩ : CalibState) detZ)) detZ
        = (⟨200, (0, 0), 5, (0, 0), 0, 0, 0, [], [], [], TzM, 1⟩,
           [GMove.rel 0 0], some ⟨2, 0, 0, 100, 100⟩) := by
      rw [a4, p4]
    have q4 : runCalib cfgZ (⟨200, (0, 0), 4, (0, 0), 0, 0, 0, [], [], [], TzM, 0⟩ : CalibState)
          [detZ, detZ]
        = ([GMove.rel 0 0], RunOut.done ⟨2, 0, 0, 100, 100⟩ []) :=
      runCalib_snd_done cfgZ _ detZ detZ [] _ _ _ (by norm_num [accumDet]) s4eq
    rw [t0, t1, t2, t3, q4]
  refine ⟨hmpp, hrun, result_record_fields cfgZ (List.replicate 6 detZ)
    (initState (some TzM)) [GMove.rel 0 0] ⟨2, 0, 0, 100, 100⟩ [] hmpp hrun⟩

end TAMV
